import Mathlib

/-!
Verification development for the voice-control planner/executor core of the
knighthacks-25 repository (`src/voice_control/`): the plan compiler
(`SimpleToolsPlanner`), the plan executor (`execute_plan`), and the robot
primitive layer (`AgentRobot` / `RobotController`).

Python strings are modelled by Lean `String` with explicit helpers that mirror
the exact `str` operations used by the source (`lower`, `strip`, `replace`,
substring containment, `split`).  Python numbers are modelled exactly over `ℚ`
(CPython float rounding is idealized; no settled claim depends on a value where
binary-float rounding differs from exact rational arithmetic).
-/

namespace VC

/-- ASCII lower-casing of one character, as Python `str.lower` acts on the
ASCII inputs used by the planner. -/
def lowerChar (c : Char) : Char :=
  if 'A' ≤ c ∧ c ≤ 'Z' then Char.ofNat (c.toNat + 32) else c

/-- Python `text.lower()` (ASCII). -/
def pyLower (s : String) : String :=
  ⟨s.data.map lowerChar⟩

/-- Python whitespace characters recognised by `str.strip()` / `str.split()`. -/
def isPyWs (c : Char) : Bool :=
  c = ' ' ∨ c = '\t' ∨ c = '\n' ∨ c = '\r' ∨ c = '\x0b' ∨ c = '\x0c'

/-- Drop leading characters satisfying `p`. -/
def dropLeading (p : Char → Bool) : List Char → List Char
  | [] => []
  | c :: r => if p c then dropLeading p r else c :: r

/-- Python `s.strip(chars)`: remove leading and trailing characters drawn from
the given set. -/
def stripChars (p : Char → Bool) (s : String) : String :=
  ⟨dropLeading p (dropLeading p s.data.reverse).reverse⟩

/-- Python `s.strip()` (whitespace strip). -/
def pyStrip (s : String) : String := stripChars isPyWs s

/-- Whether `pat` occurs as a contiguous sublist of `s` (Python `pat in s`). -/
def subOccurs (pat : List Char) : List Char → Bool
  | [] => pat.isEmpty
  | c :: r => List.isPrefixOf pat (c :: r) || subOccurs pat r

/-- Python substring test `pat in s`. -/
def pyIn (pat s : String) : Bool := subOccurs pat.data s.data

/-- Python `s.startswith(pre)`. -/
def pyStarts (pre s : String) : Bool := List.isPrefixOf pre.data s.data

/-- Python `s.endswith(suf)`. -/
def pyEnds (suf s : String) : Bool := List.isPrefixOf suf.data.reverse s.data.reverse

/-- Fuel-driven core of Python `s.replace(pat, rep)`: left-to-right,
non-overlapping replacement of every occurrence of a non-empty `pat`.  Each
step consumes at least one input character, so fuel `length + 1` never runs
out (the `0` case only exists to make the recursion structural).  The source
never calls `replace` with an empty pattern; that degenerate Python behaviour
(inserting between every character) is not modelled. -/
def replaceAux (pat rep : List Char) : Nat → List Char → List Char
  | 0, l => l
  | _ + 1, [] => []
  | fuel + 1, c :: r =>
    if pat.isEmpty then c :: r
    else if List.isPrefixOf pat (c :: r) then
      rep ++ replaceAux pat rep fuel (List.drop pat.length (c :: r))
    else
      c :: replaceAux pat rep fuel r

/-- Python `s.replace(pat, rep)`. -/
def pyReplace (s pat rep : String) : String :=
  ⟨replaceAux pat.data rep.data (s.data.length + 1) s.data⟩

/-- Python `s.split()` (split on whitespace runs, no empty fields). -/
def pySplitWs (s : String) : List String :=
  (s.data.splitOnP (fun c => isPyWs c)).filterMap
    (fun w => if w.isEmpty then none else some ⟨w⟩)

/-- Keep only the characters allowed through the planner's arithmetic filter
`re.sub(r"[^0-9+\-*/(). ]", "", expr)`. -/
def arithFilterChar (c : Char) : Bool :=
  ('0' ≤ c ∧ c ≤ '9') ∨ c = '+' ∨ c = '-' ∨ c = '*' ∨ c = '/' ∨
    c = '(' ∨ c = ')' ∨ c = '.' ∨ c = ' '

/-- The arithmetic character filter applied by both the fast path and the rule
fallback before evaluation. -/
def arithFilter (s : String) : String :=
  ⟨s.data.filter arithFilterChar⟩

/-! ## Exact Python numbers

Python ints and floats are modelled by `PyNum`, an unreduced fraction of an
`Int` numerator over a positive `Nat` denominator.  All operations use only
kernel-computable `Int`/`Nat` arithmetic (never `Nat.gcd`), so plan values can
be compared with `decide`.  Float rounding is idealized: arithmetic is exact.
Every constructor below keeps the denominator positive. -/
structure PyNum where
  num : Int
  den : Nat
deriving DecidableEq, Repr

/-- Embed an integer. -/
def PyNum.ofInt (n : Int) : PyNum := ⟨n, 1⟩

/-- Exact addition. -/
def PyNum.add (a b : PyNum) : PyNum :=
  ⟨a.num * b.den + b.num * a.den, a.den * b.den⟩

/-- Exact subtraction. -/
def PyNum.sub (a b : PyNum) : PyNum :=
  ⟨a.num * b.den - b.num * a.den, a.den * b.den⟩

/-- Negation. -/
def PyNum.neg (a : PyNum) : PyNum := ⟨-a.num, a.den⟩

/-- Exact multiplication. -/
def PyNum.mul (a b : PyNum) : PyNum := ⟨a.num * b.num, a.den * b.den⟩

/-- Exact division; `none` on a zero divisor (Python `ZeroDivisionError`). -/
def PyNum.divQ (a b : PyNum) : Option PyNum :=
  if b.num = 0 then none
  else some ⟨a.num * b.den * (if 0 ≤ b.num then 1 else -1), a.den * b.num.natAbs⟩

/-- Python floor division `a // b`: the floor of the exact quotient (an
integer value, as both int//int and float//float produce); `none` on a zero
divisor. -/
def PyNum.floorDivQ (a b : PyNum) : Option PyNum :=
  if b.num = 0 then none
  else some ⟨Int.fdiv (a.num * b.den * (if 0 ≤ b.num then 1 else -1))
    (a.den * b.num.natAbs), 1⟩

/-- Python power `a ** e` for an integer-valued exponent, computed exactly
(`0 ** negative` raises `ZeroDivisionError`).  A non-integer exponent makes
CPython produce an irrational float (or a complex number for a negative
base), which has no exact rational model; such powers are treated as outside
the exactly-modelled fragment and yield `none`.  No settled claim depends on
a non-integer power. -/
def PyNum.powQ (a e : PyNum) : Option PyNum :=
  if Int.emod e.num e.den = 0 then
    let n : Int := Int.tdiv e.num e.den
    if 0 ≤ n then
      some ⟨a.num ^ n.toNat, a.den ^ n.toNat⟩
    else if a.num = 0 then none
    else
      some ⟨((a.den : Int) * (if 0 ≤ a.num then 1 else -1)) ^ (-n).toNat,
        a.num.natAbs ^ (-n).toNat⟩
  else none

/-- Semantic order: `a ≤ b` as rationals (denominators are positive). -/
def PyNum.le (a b : PyNum) : Bool := a.num * b.den ≤ b.num * a.den

/-- Semantic strict order. -/
def PyNum.lt (a b : PyNum) : Bool := a.num * b.den < b.num * a.den

/-- Semantic equality of the represented rationals. -/
def PyNum.eqv (a b : PyNum) : Bool := a.num * b.den = b.num * a.den

/-- Python `max(a, b)` (returns the second operand only when it is larger). -/
def PyNum.pymax (a b : PyNum) : PyNum := if PyNum.lt a b then b else a

/-- Python `min(a, b)` (returns the second operand only when it is smaller). -/
def PyNum.pymin (a b : PyNum) : PyNum := if PyNum.lt b a then b else a

/-- Python `int(x)` on a number: truncation toward zero. -/
def PyNum.trunc (a : PyNum) : Int := Int.tdiv a.num a.den

/-- The represented value as a rational number, for stating semantic
properties. -/
def PyNum.toQ (a : PyNum) : ℚ := (a.num : ℚ) / (a.den : ℚ)

/-- The source test `abs(answer_val - int(answer_val)) < 1e-9`, evaluated
exactly: `|num - trunc·den| · 10⁹ < den`. -/
def PyNum.nearInt (a : PyNum) : Bool :=
  (a.num - a.trunc * a.den).natAbs * 1000000000 < a.den

/-! ## Data model: JSON-like argument values, Steps and Plans

Argument values are modelled at the JSON shapes the planner emits and the
executor dispatches on: primitives, flat `{joint: value}` maps, and the list
of trajectory sub-step dicts. -/

/-- A primitive Python value in step arguments: a string, an int, or a float
(both numbers carried as exact `PyNum`). -/
inductive Prim where
  | s (v : String)
  | i (v : Int)
  | q (v : PyNum)
deriving DecidableEq, Repr

/-- A value inside one trajectory sub-step dict: a primitive (`wait` amount)
or a joint map (`move_joints` / `relative_move` payload). -/
inductive TrajVal where
  | p (v : Prim)
  | jm (v : List (String × Prim))
deriving DecidableEq, Repr

/-- One trajectory sub-step: a small string-keyed dict. -/
abbrev TrajStep := List (String × TrajVal)

/-- A step argument value. -/
inductive JVal where
  | p (v : Prim)
  | jm (v : List (String × Prim))
  | steps (v : List TrajStep)
deriving DecidableEq, Repr

/-- Shorthand for string arguments. -/
def JVal.str (v : String) : JVal := .p (.s v)

/-- Shorthand for int arguments. -/
def JVal.int (v : Int) : JVal := .p (.i v)

/-- One plan step `{call: ToolName, args: {...}}`. -/
structure Step where
  call : String
  args : List (String × JVal)
deriving DecidableEq, Repr

/-- A plan: an ordered list of steps. -/
abbrev Plan := List Step

/-- Python `d.get(k)` on a string-keyed dict (keys are unique in source data;
first match is returned). -/
def alistGet {α : Type} (l : List (String × α)) (k : String) : Option α :=
  (l.find? (fun p => p.1 == k)).map (fun p => p.2)

/-- Python `d.get(k, dflt)`. -/
def argGetD (l : List (String × JVal)) (k : String) (d : JVal) : JVal :=
  (alistGet l k).getD d

/-- Python `k in d`. -/
def hasKey {α : Type} (l : List (String × α)) (k : String) : Bool :=
  (alistGet l k).isSome

/-! ## Restricted arithmetic evaluation

Models Python `eval(expr, {"__builtins__": {}}, {})` on strings that have
already passed the planner's character filter, i.e. expressions over digits,
`+ - * /`, parentheses, dots and spaces.  Numeric results are exact; any
lexical or syntax error, and division by zero (`ZeroDivisionError`, which the
callers catch), yields `none`. -/

/-- Arithmetic token (`dstar` is `**`, `dslash` is `//`; both survive the
character filter as doubled `*` / `/`). -/
inductive ATok where
  | num (q : PyNum)
  | plus | minus | star | slash | dstar | dslash | lpar | rpar
deriving DecidableEq, Repr

/-- Decimal digit test. -/
def isDigit (c : Char) : Bool := '0' ≤ c ∧ c ≤ '9'

/-- Character that may be part of a numeric literal. -/
def isNumChar (c : Char) : Bool := isDigit c ∨ c = '.'

/-- Value of a digit run. -/
def natOfDigits (l : List Char) : Nat :=
  l.foldl (fun a c => a * 10 + (c.toNat - 48)) 0

/-- Value of a numeric literal run (digits with at most one dot, at least one
digit), as Python parses `3`, `3.5`, `3.`, `.5`.  An integer literal with a
leading zero and another digit (`07`) is a `SyntaxError` in Python 3 (while
`0`, `00` and float literals such as `00.5` are legal). -/
def numValue (cs : List Char) : Option PyNum :=
  if cs.any isDigit then
    match cs.splitOnP (fun c => c = '.') with
    | [ip] =>
      if 2 ≤ ip.length ∧ ip.head? = some '0' ∧ ¬ ip.all (fun c => c = '0') then none
      else some ⟨natOfDigits ip, 1⟩
    | [ip, fp] => some ⟨natOfDigits ip * 10 ^ fp.length + natOfDigits fp, 10 ^ fp.length⟩
    | _ => none
  else none

/-- Fuel-driven lexer for the restricted arithmetic fragment; each step
consumes at least one character.  Adjacent `**` / `//` lex as single power /
floor-division tokens, as Python tokenizes them. -/
def lexArith : Nat → List Char → Option (List ATok)
  | 0, _ => none
  | _ + 1, [] => some []
  | fuel + 1, c :: r =>
    if c = ' ' then lexArith fuel r
    else if c = '+' then (lexArith fuel r).map (fun ts => ATok.plus :: ts)
    else if c = '-' then (lexArith fuel r).map (fun ts => ATok.minus :: ts)
    else if c = '*' then
      match r with
      | '*' :: r2 => (lexArith fuel r2).map (fun ts => ATok.dstar :: ts)
      | _ => (lexArith fuel r).map (fun ts => ATok.star :: ts)
    else if c = '/' then
      match r with
      | '/' :: r2 => (lexArith fuel r2).map (fun ts => ATok.dslash :: ts)
      | _ => (lexArith fuel r).map (fun ts => ATok.slash :: ts)
    else if c = '(' then (lexArith fuel r).map (fun ts => ATok.lpar :: ts)
    else if c = ')' then (lexArith fuel r).map (fun ts => ATok.rpar :: ts)
    else if isNumChar c then
      match numValue ((c :: r).takeWhile isNumChar) with
      | some q => (lexArith fuel ((c :: r).dropWhile isNumChar)).map (fun ts => ATok.num q :: ts)
      | none => none
    else none

/-- Fuel-driven recursive-descent parser/evaluator with Python precedence and
associativity.  `lvl` selects the production: 0 = expression, 3 = expression
tail (`+`/`-`, left-associative, accumulator `acc`), 1 = term, 4 = term tail
(`*`/`/`/`//`, left-associative), 2 = unary expression (`u_expr`: unary signs
over a power), 5 = power (`primary ["**" u_expr]`, right-associative, so
`-3 ** 2 = -9` and the exponent admits its own unary sign), any other value =
primary (literal or parentheses).  Division by zero fails like
`ZeroDivisionError`. -/
def parseLvl : Nat → Nat → PyNum → List ATok → Option (PyNum × List ATok)
  | 0, _, _, _ => none
  | fuel + 1, 0, _, ts =>
    (parseLvl fuel 1 ⟨0, 1⟩ ts).bind (fun vr => parseLvl fuel 3 vr.1 vr.2)
  | fuel + 1, 3, acc, ts =>
    match ts with
    | ATok.plus :: r =>
      (parseLvl fuel 1 ⟨0, 1⟩ r).bind (fun vr => parseLvl fuel 3 (acc.add vr.1) vr.2)
    | ATok.minus :: r =>
      (parseLvl fuel 1 ⟨0, 1⟩ r).bind (fun vr => parseLvl fuel 3 (acc.sub vr.1) vr.2)
    | _ => some (acc, ts)
  | fuel + 1, 1, _, ts =>
    (parseLvl fuel 2 ⟨0, 1⟩ ts).bind (fun vr => parseLvl fuel 4 vr.1 vr.2)
  | fuel + 1, 4, acc, ts =>
    match ts with
    | ATok.star :: r =>
      (parseLvl fuel 2 ⟨0, 1⟩ r).bind (fun vr => parseLvl fuel 4 (acc.mul vr.1) vr.2)
    | ATok.slash :: r =>
      (parseLvl fuel 2 ⟨0, 1⟩ r).bind (fun vr =>
        match acc.divQ vr.1 with
        | some v => parseLvl fuel 4 v vr.2
        | none => none)
    | ATok.dslash :: r =>
      (parseLvl fuel 2 ⟨0, 1⟩ r).bind (fun vr =>
        match acc.floorDivQ vr.1 with
        | some v => parseLvl fuel 4 v vr.2
        | none => none)
    | _ => some (acc, ts)
  | fuel + 1, 2, _, ts =>
    match ts with
    | ATok.plus :: r => parseLvl fuel 2 ⟨0, 1⟩ r
    | ATok.minus :: r => (parseLvl fuel 2 ⟨0, 1⟩ r).map (fun vr => (vr.1.neg, vr.2))
    | _ => parseLvl fuel 5 ⟨0, 1⟩ ts
  | fuel + 1, 5, _, ts =>
    (parseLvl fuel 6 ⟨0, 1⟩ ts).bind (fun vr =>
      match vr.2 with
      | ATok.dstar :: r =>
        (parseLvl fuel 2 ⟨0, 1⟩ r).bind (fun er =>
          match vr.1.powQ er.1 with
          | some v => some (v, er.2)
          | none => none)
      | _ => some vr)
  | fuel + 1, _, _, ts =>
    match ts with
    | ATok.num q :: r => some (q, r)
    | ATok.lpar :: r =>
      match parseLvl fuel 0 ⟨0, 1⟩ r with
      | some (v, ATok.rpar :: rest) => some (v, rest)
      | _ => none
    | _ => none

/-- Python `eval` on a filtered arithmetic expression string: `some` exact
value, or `none` on any error (including a non-integer exponent, whose float
power has no exact model; see `PyNum.powQ`). -/
def pyEval (s : String) : Option PyNum :=
  match lexArith (s.data.length + 1) s.data with
  | some ts =>
    match parseLvl (20 * ts.length + 20) 0 ⟨0, 1⟩ ts with
    | some (v, []) => some v
    | _ => none
  | none => none

/-! ## Number-to-string rendering -/

/-- Decimal digit characters of a natural number. -/
def natToChars (n : Nat) : List Char := (toString n).data

/-- Strip trailing `0` characters. -/
def stripZeros (l : List Char) : List Char :=
  (dropLeading (fun c => c = '0') l.reverse).reverse

/-- Is `n / d < 10 ^ e` (for positive `n`, `d`)? -/
def ltPow10 (n d : Nat) (e : Int) : Bool :=
  if 0 ≤ e then n < 10 ^ e.toNat * d else n * 10 ^ (-e).toNat < d

/-- Locate the decimal exponent `e` with `10^e ≤ n/d < 10^(e+1)` by bounded
adjustment from an initial digit-count estimate. -/
def fixExp : Nat → Int → Nat → Nat → Int
  | 0, e, _, _ => e
  | f + 1, e, n, d =>
    if ltPow10 n d e then fixExp f (e - 1) n d
    else if ¬ ltPow10 n d (e + 1) then fixExp f (e + 1) n d
    else e

/-- Models CPython `f"{v:.3g}"` (three significant digits, scientific notation
outside `[1e-4, 1e3)`, trailing zeros stripped).  Rounding is half-up over the
exact value; CPython rounds the nearest binary double half-to-even — the
difference is unobservable for the planner's claims, none of which exercise a
formatting tie. -/
def fmtG3 (v : PyNum) : String :=
  if v.num = 0 then "0"
  else
    let sign := if v.num < 0 then "-" else ""
    let n := v.num.natAbs
    let d := v.den
    let e0 : Int := (natToChars n).length - (natToChars d).length
    let e1 := fixExp 40 e0 n d
    let nd := if 0 ≤ e1 - 2 then (n, d * 10 ^ (e1 - 2).toNat) else (n * 10 ^ (2 - e1).toNat, d)
    let m0 := (2 * nd.1 + nd.2) / (2 * nd.2)
    let m := if m0 = 1000 then 100 else m0
    let e := if m0 = 1000 then e1 + 1 else e1
    let ds := natToChars m
    if e < -4 ∨ 3 ≤ e then
      let mant := stripZeros ds.tail
      let mantStr := String.mk (ds.take 1) ++ (if mant.isEmpty then "" else "." ++ String.mk mant)
      let ea := (if e < 0 then (-e).toNat else e.toNat)
      let eStr := (if ea < 10 then "0" else "") ++ toString ea
      sign ++ mantStr ++ "e" ++ (if e < 0 then "-" else "+") ++ eStr
    else if 0 ≤ e then
      let ip := ds.take (e.toNat + 1)
      let fp := stripZeros (ds.drop (e.toNat + 1))
      sign ++ String.mk ip ++ (if fp.isEmpty then "" else "." ++ String.mk fp)
    else
      sign ++ "0." ++ String.mk (stripZeros (List.replicate ((-e).toNat - 1) '0' ++ ds))

/-- The source branch turning an evaluated number into the tactile answer
text: `str(int(v))` when within `1e-9` of an integer, else `f"{v:.3g}"`. -/
def answerString (v : PyNum) : String :=
  if v.nearInt then toString v.trunc else fmtG3 v

/-! ## The planner (`SimpleToolsPlanner`)

`_rule_plan`, the two pre-generation fast paths of `plan`, the repair and
salvage heuristics, and `plan` itself under its two all-backends-failing
modes (`llm_tools_agent_simple.py`).  When every backend fails, generation
yields one of two outcomes: no raw text at all (`raw is None` after a timeout
or exception, lines 697-705, or an immediate fallback when the model is
already marked failed and no Ollama/remote endpoint is configured, lines
664-667), in which case `plan` answers from a fast path or returns
`self._rule_plan(text)` — modelled by `planAllFail`; or, with an Ollama model
configured but unreachable, `_gen` returns the empty string (line 472), the
JSON extraction and the forced reprompt find nothing (the reprompt raises
inside the local-pipe path and yields `raw_force = None`), and `plan` runs
`_repair_to_json` then `_salvage_plan` over `(raw_force or '') + '\n' + raw
= "\n"` before the rule fallback (lines 726-759) — modelled by
`planOllamaFail`.  That first failed call sets `self._failed`, so the second
call in the Ollama mode skips the Ollama block, gets `raw = None`, and
behaves like `planAllFail`.  Neither mode ever writes the cache (the store at
lines 815-822 is reached only after a successful generation parse). -/

/-- The planner's word→operator map, applied in dict insertion order by both
the arithmetic fast path and the rule fallback. -/
def wordMap : List (String × String) :=
  [("plus", "+"), ("minus", "-"), ("times", "*"), ("multiplied by", "*"),
   ("x", "*"), ("divided by", "/"), ("over", "/")]

/-- Apply every word→operator replacement in order. -/
def applyWordMap (s : String) : String :=
  wordMap.foldl (fun acc kv => pyReplace acc kv.1 kv.2) s

/-- Shared arithmetic extraction used by the fast path and the rule fallback:
drop question phrasing, map operator words, filter characters, strip spaces
and question marks, then evaluate if an operator remains; errors give
`none`. -/
def arithAnswer (t : String) : Option String :=
  let expr := applyWordMap (pyReplace (pyReplace t "what is" "") "what's" "")
  let expr := stripChars (fun c => c = ' ' ∨ c = '?') (arithFilter expr)
  if expr ≠ "" ∧ (pyIn "+" expr ∨ pyIn "-" expr ∨ pyIn "*" expr ∨ pyIn "/" expr) then
    (pyEval expr).map answerString
  else none

/-- Trigger keywords of the arithmetic fast path in `plan`. -/
def arithKeys : List String :=
  [" plus ", " minus ", " times ", " divided by ", "*", "/", "+"]

/-- Reference-motion step. -/
def refMotionStep (n : String) : Step := ⟨"reference_motion", [("name", JVal.str n)]⟩

/-- Tactile-answer step. -/
def tapMorseStep (w : String) : Step := ⟨"tap_morse", [("text", JVal.str w)]⟩

/-- Wait step with a float amount. -/
def waitStep (v : PyNum) : Step := ⟨"wait", [("seconds", JVal.p (.q v))]⟩

/-- The arithmetic fast path of `plan` (lines 632-651): fires when an operator
keyword occurs in the lowered text and the extraction succeeds. -/
def fastArith (low : String) : Option String :=
  if arithKeys.any (fun k => pyIn k low) then arithAnswer low else none

/-- Trigger keywords of the preference fast path (note the surrounding
spaces: `" better "` does not occur in a text ending `"better?"`). -/
def prefKeys : List String := [" better ", " favorite ", " prefer "]

/-- Token of the preference-pair scan: a maximal word-character run, a
whitespace run, or any other character run. -/
inductive PTok where
  | word (w : List Char)
  | ws
  | other
deriving DecidableEq, Repr

/-- Character class of Python `\w` on lowered text. -/
def isWordChar (c : Char) : Bool :=
  ('a' ≤ c ∧ c ≤ 'z') ∨ isDigit c ∨ c = '_'

/-- Fuel-driven tokenizer splitting a lowered text into word / whitespace /
other runs. -/
def pTokens : Nat → List Char → List PTok
  | 0, _ => []
  | _ + 1, [] => []
  | fuel + 1, c :: r =>
    if isWordChar c then
      PTok.word ((c :: r).takeWhile isWordChar) :: pTokens fuel ((c :: r).dropWhile isWordChar)
    else if isPyWs c then
      PTok.ws :: pTokens fuel ((c :: r).dropWhile isPyWs)
    else
      PTok.other :: pTokens fuel ((c :: r).dropWhile (fun x => ¬ (isWordChar x ∨ isPyWs x)))

/-- A run qualifying as a capture group `[a-z0-9]{2,}` delimited by word
boundaries: at least two characters, none of them an underscore. -/
def qualifiesWord (w : List Char) : Bool :=
  2 ≤ w.length ∧ w.all (fun c => ('a' ≤ c ∧ c ≤ 'z') ∨ isDigit c)

/-- Model of `re.findall(r"\b([a-z0-9]{2,})\b\s+or\s+\b([a-z0-9]{2,})\b", low)`:
left-to-right non-overlapping matches of `word or word` with pure whitespace
separation. -/
def scanPairs : List PTok → List (String × String)
  | PTok.word a :: PTok.ws :: PTok.word o :: PTok.ws :: PTok.word b :: rest =>
    if qualifiesWord a ∧ o = ['o', 'r'] ∧ qualifiesWord b then
      (⟨a⟩, ⟨b⟩) :: scanPairs rest
    else
      scanPairs (PTok.ws :: PTok.word o :: PTok.ws :: PTok.word b :: rest)
  | _ :: rest => scanPairs rest
  | [] => []

/-- All preference pairs of a lowered text. -/
def pairMatches (low : String) : List (String × String) :=
  scanPairs (pTokens (low.data.length + 1) low.data)

/-- The preference/comparison fast path of `plan` (lines 652-663).  The
deterministic choice hash `int(sha256(text).hexdigest(), 16)` is abstracted
as the parameter `hv`; no settled claim depends on its value, only on its
determinism. -/
def fastPref (hv : String → Nat) (text : String) : Option Plan :=
  let low := pyLower text
  if prefKeys.any (fun k => pyIn k low) ∧ pyEnds "?" low then
    some (match (pairMatches low).getLast? with
      | some ab => [tapMorseStep (if hv text % 2 = 0 then ab.1 else ab.2)]
      | none => [refMotionStep "dunno"])
  else none

/-- Yes/no question detection prefixes of `_rule_plan`. -/
def ynPrefixes : List String :=
  ["is ", "are ", "do ", "does ", "can ", "will ", "would ", "should "]

/-- The karate/chop canned trajectory of `_rule_plan`. -/
def karateTraj : Step :=
  ⟨"trajectory", [("steps", JVal.steps [
    [("relative_move", TrajVal.jm [("shoulder_pan", .i (-160)), ("elbow_flex", .i 300)])],
    [("wait", TrajVal.p (.q ⟨2, 10⟩))],
    [("relative_move", TrajVal.jm [("wrist_flex", .i 350)])],
    [("wait", TrajVal.p (.q ⟨12, 100⟩))],
    [("relative_move", TrajVal.jm [("wrist_flex", .i (-350)), ("elbow_flex", .i (-300)),
       ("shoulder_pan", .i 160)])]])]⟩

/-- The canned trajectory for texts starting with `move`. -/
def moveTraj : Step :=
  ⟨"trajectory", [("steps", JVal.steps [
    [("relative_move", TrajVal.jm [("shoulder_pan", .i (-300)), ("elbow_flex", .i 250)])],
    [("wait", TrajVal.p (.q ⟨4, 10⟩))],
    [("relative_move", TrajVal.jm [("shoulder_pan", .i 600), ("wrist_flex", .i (-200))])],
    [("wait", TrajVal.p (.q ⟨4, 10⟩))],
    [("relative_move", TrajVal.jm [("shoulder_pan", .i (-300)), ("elbow_flex", .i (-250)),
       ("wrist_flex", .i 200)])]])]⟩

/-- The default expressive small flourish trajectory of `_rule_plan`. -/
def flourishTraj : Step :=
  ⟨"trajectory", [("steps", JVal.steps [
    [("relative_move", TrajVal.jm [("shoulder_pan", .i 100)])],
    [("wait", TrajVal.p (.q ⟨3, 10⟩))],
    [("relative_move", TrajVal.jm [("shoulder_pan", .i (-100))])]])]⟩

/-- Word following `tap` in the text, for explicit `tap morse` commands. -/
def morseWordOf (t : String) : String :=
  let parts := pySplitWs t
  match parts.findIdx? (fun w => w == "tap") with
  | some idx => if idx + 1 < parts.length then parts.getD (idx + 1) "sos" else "sos"
  | none => "sos"

/-- `SimpleToolsPlanner._rule_plan` (lines 211-311): the deterministic
generation-free fallback planner. -/
def rulePlan (text : String) : Plan :=
  let t := pyStrip (pyLower text)
  if t = "" ∨ t = "stop" ∨ t = "exit" ∨ t = "quit" then []
  else if pyEnds "?" t then
    if ynPrefixes.any (fun p => pyStarts p t) then
      let neg := (pyIn "sky" t ∧ pyIn "green" t) ∨ (pyIn "elephant" t ∧ pyIn "moon" t) ∨
        pyIn "are you a human" t
      let pos := pyIn "understand" t ∨ pyIn "listening" t ∨ (pyIn "hear" t ∧ pyIn "me" t) ∨
        pyIn "can you hear me" t
      let yn := if neg then "no" else if pos then "yes" else "yes"
      [refMotionStep yn]
    else
      match arithAnswer t with
      | some ans => [tapMorseStep ans]
      | none =>
        if pyIn "paper" t then [tapMorseStep "cellulose"]
        else [refMotionStep "dunno"]
  else if pyIn "big wave" t then [refMotionStep "big_wave"]
  else if pyIn "wave" t then [⟨"wave", [("repetitions", JVal.int 1)]⟩]
  else if pyIn "gripper" t ∧ (pyIn "open" t ∨ pyIn "close" t) then
    (if pyIn "open" t then [(⟨"open_gripper", []⟩ : Step)] else []) ++
    (if pyIn "close" t then
      (if pyIn "open" t then [waitStep ⟨4, 10⟩] else []) ++ [(⟨"close_gripper", []⟩ : Step)]
    else [])
  else if pyIn "karate" t ∨ pyIn "chop" t then [karateTraj]
  else if pyIn "big wave" t ∨ (pyIn "wave" t ∧ pyIn "big" t) then [refMotionStep "big_wave"]
  else if pyStarts "move" t ∨ pyStarts "do a move" t ∨ t = "move" then [moveTraj]
  else if pyIn "tap" t ∧ pyIn "morse" t then [tapMorseStep (morseWordOf t)]
  else if pyIn "dance" t ∨ pyIn "funny" t then [refMotionStep "dance"]
  else [flourishTraj]

/-- `SimpleToolsPlanner.plan` in the failure mode where generation yields no
raw text (timeout/exception gives `raw = None`, lines 697-705, or the model
is already marked failed with no Ollama/remote endpoint configured, lines
664-667): input strip and empty check, exact-text cache lookup (the read
returns a fresh list of fresh step dicts with the same values; the aliasing
of the nested args dicts is analysed separately by the store model below),
stop phrases, the arithmetic fast path, the preference fast path, and finally
the rule fallback.  This is also the behaviour of every call after the first
in the Ollama-unreachable mode, whose first call is `planOllamaFail` below.
The cache is never written on these paths. -/
def planAllFail (hv : String → Nat) (cache : List (String × Plan)) (user_text : String) : Plan :=
  let text := pyStrip user_text
  if text = "" then []
  else
    match alistGet cache text with
    | some cached => cached
    | none =>
      if pyLower text = "stop" ∨ pyLower text = "exit" ∨ pyLower text = "quit" then []
      else
        match fastArith (pyLower text) with
        | some ans => [tapMorseStep ans]
        | none =>
          match fastPref hv text with
          | some p => p
          | none => rulePlan text

/-- Model of `re.search(r"tap(?: morse)? ([a-z0-9]+)", s)`: the captured word
of the leftmost match, the optional `" morse"` tried greedily first at each
position as the regex engine does. -/
def alnumRun (l : List Char) : List Char :=
  l.takeWhile (fun c => ('a' ≤ c ∧ c ≤ 'z') ∨ isDigit c)

/-- Fuel-driven scan for `findTapWord`, advancing one character per step. -/
def findTapWordAux : Nat → List Char → Option String
  | 0, _ => none
  | _ + 1, [] => none
  | fuel + 1, c :: r =>
    if List.isPrefixOf "tap morse ".data (c :: r) ∧ alnumRun ((c :: r).drop 10) ≠ [] then
      some ⟨alnumRun ((c :: r).drop 10)⟩
    else if List.isPrefixOf "tap ".data (c :: r) ∧ alnumRun ((c :: r).drop 4) ≠ [] then
      some ⟨alnumRun ((c :: r).drop 4)⟩
    else findTapWordAux fuel r

/-- The captured group of the first `tap(?: morse)? ([a-z0-9]+)` match. -/
def findTapWord (s : String) : Option String :=
  findTapWordAux (s.data.length + 1) s.data

/-- The keyword-assembly phase of `_repair_to_json` (lines 576-616): ordered
keyword checks over the lowered raw text build a plan, and the leftover
arithmetic branch over the lowered user text answers when no keyword fired,
an operator character occurs in the user text, and `"plan"` does not occur in
the raw text.  The expression pipeline is the same `arithAnswer` used by the
fast path and the rule fallback (identical replaces, filter, strip and
formatting, lines 604-612). -/
def repairKeywords (low_u low : String) : Option Plan :=
  let p1 : Plan := if pyIn "open the gripper" low ∨ pyIn "open gripper" low then
    [⟨"open_gripper", []⟩] else []
  let p2 : Plan := p1 ++
    (if pyIn "close the gripper" low ∨ pyIn "close gripper" low then
      (if (p1.getLast?).map Step.call = some "open_gripper" then [waitStep ⟨4, 10⟩] else []) ++
        [⟨"close_gripper", []⟩]
    else [])
  let p3 : Plan := p2 ++
    (if pyIn "big wave" low then [refMotionStep "big_wave"]
     else if pyIn "wave" low then [⟨"wave", [("repetitions", JVal.int 1)]⟩]
     else [])
  let p4 : Plan := p3 ++ (if pyIn "karate" low ∨ pyIn "chop" low then [karateTraj] else [])
  let p5 : Plan := p4 ++ (if pyIn "dance" low ∨ pyIn "funny" low then [refMotionStep "dance"] else [])
  let p6 : Plan := p5 ++
    (if pyIn "draw" low ∧ (pyIn "circle" low ∨ pyIn "square" low) then
      [⟨"draw_shape", [("shape", JVal.str (if pyIn "circle" low then "circle" else "square")),
        ("size_mm", JVal.int 60)]⟩]
    else [])
  let p7 : Plan := p6 ++
    (if pyIn "morse" low ∧ pyIn "tap" low then
      [tapMorseStep ((findTapWord low).getD "sos")]
    else [])
  if p7.isEmpty ∧ (pyIn "+" low_u ∨ pyIn "-" low_u ∨ pyIn "*" low_u ∨ pyIn "/" low_u) ∧
      ¬ pyIn "plan" low then
    match arithAnswer low_u with
    | some sval => some [tapMorseStep sval]
    | none => if p7.isEmpty then none else some p7
  else if p7.isEmpty then none else some p7

/-- `SimpleToolsPlanner._repair_to_json` (lines 560-616).  The preference
branch checks the bare substrings `better` / `prefer` / `favorite` (no
surrounding spaces, unlike the fast path's `prefKeys`) together with a
trailing `?` and `" or "`, and returns the hash-chosen pair element when the
pair regex matches; otherwise the keyword phase runs.  The choice hash is the
same abstracted `hv`. -/
def repairToJson (hv : String → Nat) (user_text raw : String) : Option Plan :=
  if raw = "" then none
  else
    let low_u := pyLower user_text
    let low := pyLower raw
    if pyEnds "?" low_u ∧ pyIn " or " low_u ∧
        (pyIn "better" low_u ∨ pyIn "prefer" low_u ∨ pyIn "favorite" low_u) then
      match (pairMatches low_u).getLast? with
      | some ab => some [tapMorseStep (if hv user_text % 2 = 0 then ab.1 else ab.2)]
      | none => repairKeywords low_u low
    else repairKeywords low_u low

/-- The ordered tool-keyword table of `_salvage_plan` (lines 835-846). -/
def salvageKeyTable : List (String × List String) :=
  [("open_gripper", ["open gripper"]),
   ("close_gripper", ["close gripper"]),
   ("wave", ["wave"]),
   ("trajectory:karate", ["karate", "chop"]),
   ("reference_motion:dance", ["dance", "funny"]),
   ("reference_motion:yes", [" yes "]),
   ("reference_motion:no", [" no "]),
   ("reference_motion:dunno", ["dunno", "shrug"]),
   ("draw_shape", ["draw", "circle", "square"]),
   ("tap_morse", ["morse", "tap"])]

/-- The salvage karate trajectory (line 878), with different offsets than the
rule fallback's `karateTraj`. -/
def salvageKarateTraj : Step :=
  ⟨"trajectory", [("steps", JVal.steps [
    [("relative_move", TrajVal.jm [("shoulder_pan", .i (-140)), ("elbow_flex", .i 260)])],
    [("wait", TrajVal.p (.q ⟨18, 100⟩))],
    [("relative_move", TrajVal.jm [("wrist_flex", .i 320)])],
    [("wait", TrajVal.p (.q ⟨1, 10⟩))],
    [("relative_move", TrajVal.jm [("wrist_flex", .i (-320)), ("elbow_flex", .i (-260)),
       ("shoulder_pan", .i 140)])]])]⟩

/-- Steps built for one ordered salvage key (lines 864-884); the
`reference_motion:` prefix dispatch is expanded over the table's four
concrete reference keys. -/
def salvageItem (tx : String) : String → List Step
  | "wave" => [⟨"wave", [("repetitions", JVal.int 1)]⟩]
  | "open_gripper" => [⟨"open_gripper", []⟩]
  | "close_gripper" => [⟨"close_gripper", []⟩]
  | "draw_shape" =>
    [⟨"draw_shape", [("shape", JVal.str (if pyIn "circle" tx then "circle"
        else if pyIn "square" tx then "square" else "circle")), ("size_mm", JVal.int 60)]⟩]
  | "trajectory:karate" => [salvageKarateTraj]
  | "tap_morse" => [tapMorseStep ((findTapWord tx).getD "sos")]
  | "reference_motion:dance" => [refMotionStep "dance"]
  | "reference_motion:yes" => [refMotionStep "yes"]
  | "reference_motion:no" => [refMotionStep "no"]
  | "reference_motion:dunno" => [refMotionStep "dunno"]
  | _ => []

/-- `SimpleToolsPlanner._salvage_plan` (lines 830-885): ordered keyword scan
over the lowered raw text; when nothing matched and the user text contains a
bare preference word, either the hash-chosen pair element or a `dunno`
reference motion; at most six items are built. -/
def salvagePlan (hv : String → Nat) (user_text raw : String) : Option Plan :=
  if raw = "" then none
  else
    let tx := pyLower raw
    let order := salvageKeyTable.filterMap
      (fun kk => if kk.2.any (fun k => pyIn k tx) then some kk.1 else none)
    if order.isEmpty ∧
        (pyIn "better" (pyLower user_text) ∨ pyIn "favorite" (pyLower user_text) ∨
         pyIn "prefer" (pyLower user_text)) then
      match (pairMatches (pyLower user_text)).getLast? with
      | some ab => some [tapMorseStep (if hv user_text % 2 = 0 then ab.1 else ab.2)]
      | none => some [refMotionStep "dunno"]
    else if order.isEmpty then none
    else
      let plan := ((order.take 6).map (salvageItem tx)).flatten
      if plan.isEmpty then none else some plan

/-- `SimpleToolsPlanner.plan` in the Ollama-unreachable failure mode, first
call: an Ollama model is configured but its endpoint is down, so `_gen`
returns `""` (line 472) and marks the planner failed; `raw = ""` is not
`None`, no JSON object is found in it, the forced reprompt falls into the
local-pipe path (no local model is loaded) and raises, giving
`raw_force = None`; `plan` then tries `_repair_to_json(text, "\n")` and
`_salvage_plan(text, "\n")` before `_rule_plan(text)` (lines 726-759).  The
pre-generation stages (strip, cache, stop phrases, the two fast paths) are
identical to `planAllFail`.  The cache is not written. -/
def planOllamaFail (hv : String → Nat) (cache : List (String × Plan)) (user_text : String) : Plan :=
  let text := pyStrip user_text
  if text = "" then []
  else
    match alistGet cache text with
    | some cached => cached
    | none =>
      if pyLower text = "stop" ∨ pyLower text = "exit" ∨ pyLower text = "quit" then []
      else
        match fastArith (pyLower text) with
        | some ans => [tapMorseStep ans]
        | none =>
          match fastPref hv text with
          | some p => p
          | none =>
            match repairToJson hv text "\n" with
            | some p => p
            | none =>
              match salvagePlan hv text "\n" with
              | some p => p
              | none => rulePlan text

/-! ## Robot primitive layer (`limits.py`, `agent_robot.py`, `robot_controller.py`)

Positions are integers.  A write is a pair `(jointName, goalPosition)` issued
to the motor bus (hardware mode) or the simulation log — both carry the same
position value. -/

/-- A loaded joint-limits map: joint name to `(min, max)`. -/
abbrev Limits := List (String × (Int × Int))

/-- The fallback nominal full range of `load_joint_limits`. -/
def fallbackLimits : Limits :=
  [("shoulder_pan", (0, 4095)), ("shoulder_lift", (0, 4095)), ("elbow_flex", (0, 4095)),
   ("wrist_flex", (0, 4095)), ("wrist_roll", (0, 4095)), ("gripper", (0, 4095))]

/-- `load_joint_limits`: the repository limits file parsed to a map (with the
per-entry `min`/`max` defaults already applied), `none` when absent or
unreadable; an absent or empty parse falls back to the nominal range. -/
def load_joint_limits (file : Option Limits) : Limits :=
  match file with
  | some l => if l.isEmpty then fallbackLimits else l
  | none => fallbackLimits

/-- `AgentRobot.move_joint`: the position actually written for a requested
integer position — clamped into the limits interval when the joint is a key
of the loaded limits map, and passed through unchanged otherwise. -/
def agentMoveJoint (limits : Limits) (name : String) (position : Int) : Int :=
  match alistGet limits name with
  | some mm => max mm.1 (min mm.2 position)
  | none => position

/-- Calibration state used by the primitive layer: the home pose (empty list
for an absent or empty entry, which Python treats as falsy) and the tap
configuration. -/
structure Calib where
  home_pose : List (String × Int)
  tap_down : Option Int
  tap_up : Option Int
  safe_lift : List (String × Int)
deriving DecidableEq, Repr

/-- The default home pose written by `_load_calibration` / `rest_pose`. -/
def defaultHomePose : List (String × Int) :=
  [("shoulder_pan", 2048), ("shoulder_lift", 2048), ("elbow_flex", 2048),
   ("wrist_flex", 2048), ("wrist_roll", 2048), ("gripper", 2048)]

/-- The calibration in effect when no calibration file exists. -/
def defaultCalib : Calib := ⟨defaultHomePose, none, none, []⟩

/-- `RobotController.rest_pose`: the configured home pose, or the nominal one
when absent/empty. -/
def restPose (c : Calib) : List (String × Int) :=
  if c.home_pose.isEmpty then defaultHomePose else c.home_pose

/-- The bus writes of `RobotController.go_home`: every rest-pose entry,
written directly (no clamping). -/
def goHomeWrites (c : Calib) : List (String × Int) := restPose c

/-- The wrist-roll targets of one wave cycle. -/
def waveRolls : List Int := [1600, 2400, 1600, 2048]

/-- The bus writes of `RobotController.wave(repetitions)`: stage at home,
write the fixed wrist-roll sequence per repetition, return home.  None of
these writes consults the joint-limits map. -/
def waveWrites (c : Calib) (repetitions : Nat) : List (String × Int) :=
  goHomeWrites c ++
    (List.replicate repetitions (waveRolls.map (fun r => ("wrist_roll", r)))).flatten ++
    goHomeWrites c

/-! ## Plan-cache aliasing (`plan`, lines 623-626 and 815-822)

The cache read `[dict(step) for step in cached]` builds a fresh list of fresh
step dicts, but `dict(step)` copies only the top level: the `args` mapping of
each copied step is the same object as in the cache.  This is modelled with an
explicit store of args dicts addressed by references. -/

/-- The store of args dicts; a reference is an index into it. -/
abbrev ArgsStore := List (List (String × JVal))

/-- A step as held in the cache or in a returned plan: the call name and a
reference to its (shared, mutable) args dict. -/
structure CStep where
  call : String
  ref : Nat
deriving DecidableEq, Repr

/-- The cache-hit read `[dict(step) for step in cached]`: fresh step records
with the same field values — in particular the same args references. -/
def readCacheSteps (cached : List CStep) : List CStep :=
  cached.map (fun s => ⟨s.call, s.ref⟩)

/-- The step value an observer sees: the args dict is looked up through the
reference. -/
def derefStep (store : ArgsStore) (s : CStep) : Step :=
  ⟨s.call, (store.getD s.ref [])⟩

/-- The observable plan behind a list of step references. -/
def materialize (store : ArgsStore) (steps : List CStep) : Plan :=
  steps.map (derefStep store)

/-- In-place mutation of the args dict behind a reference (what executor-side
code does when it rewrites `step["args"]["k"]`). -/
def writeArgs (store : ArgsStore) (r : Nat) (new : List (String × JVal)) : ArgsStore :=
  store.set r new

/-! ## Morse tapping timing (`RobotController.tap_morse`)

The symbol sequence is modelled from the spec (the text-to-Morse encoder
`morse.py` is absent from the sources): a sequence of tokens, each either a word gap or
a letter made of dot/dash symbols.  Timing uses exact rationals; sleeps are
the literal `time.sleep` amounts of the source. -/

/-- A Morse symbol. -/
inductive MSym where
  | dot
  | dash
deriving DecidableEq, Repr

/-- Modelled from the spec: one token of the encoded `MorseSymbolSequence`
produced by `to_morse` — a letter (a string of `.`/`-` symbols) or a literal
space (word boundary). -/
inductive MorseToken where
  | space
  | letter (syms : List MSym)
deriving DecidableEq, Repr

/-- An observable event of `tap_morse`: a bus write, a sleep (seconds), or
the staging `go_home()` call. -/
inductive TapEvent where
  | write (joint : String) (pos : Int)
  | sleep (secs : ℚ)
  | home
deriving DecidableEq, Repr

/-- Events of one tapped symbol: wrist down, quick descent sleep `0.6·u`,
dwell `max(0.02, 0.4·d)` where `d` is `u` for a dot and `3u` for a dash,
wrist up, intra-symbol sleep `u`. -/
def tapSymbolEvents (down up : Int) (u : ℚ) (ch : MSym) : List TapEvent :=
  [TapEvent.write "wrist_flex" down,
   TapEvent.sleep (u * (6/10)),
   TapEvent.sleep (max (2/100) ((match ch with | MSym.dot => u | MSym.dash => 3 * u) * (4/10))),
   TapEvent.write "wrist_flex" up,
   TapEvent.sleep u]

/-- Events of one token: a word gap sleeps `7u`; a letter taps each symbol
and then sleeps the inter-letter `3u`. -/
def tapTokenEvents (down up : Int) (u : ℚ) : MorseToken → List TapEvent
  | MorseToken.space => [TapEvent.sleep (7 * u)]
  | MorseToken.letter syms => (syms.map (tapSymbolEvents down up u)).flatten ++ [TapEvent.sleep (3 * u)]

/-- The full event trace of `tap_morse(text, unit_ms)` over an encoded token
sequence, for a calibration with tap positions `down`/`up` and optional
safe-lift pose (staging is `go_home()` when no safe-lift pose is
configured). -/
def tapMorseEvents (down up : Int) (safeLift : List (String × Int)) (unit_ms : ℚ)
    (seq : List MorseToken) : List TapEvent :=
  let u := unit_ms / 1000
  (if safeLift.isEmpty then [TapEvent.home]
   else safeLift.map (fun jp => TapEvent.write jp.1 jp.2) ++ [TapEvent.sleep (8/10)]) ++
  (seq.map (tapTokenEvents down up u)).flatten ++
  (if safeLift.isEmpty then []
   else safeLift.map (fun jp => TapEvent.write jp.1 jp.2) ++ [TapEvent.sleep (6/10)])

/-- Drop events up to (but keeping) the first bus write. -/
def dropToFirstWrite : List TapEvent → List TapEvent
  | [] => []
  | TapEvent.write j p :: r => TapEvent.write j p :: r
  | TapEvent.sleep _ :: r => dropToFirstWrite r
  | TapEvent.home :: r => dropToFirstWrite r

/-- Total sleep time before the next bus write. -/
def sleepsToNextWrite : List TapEvent → ℚ
  | [] => 0
  | TapEvent.write _ _ :: _ => 0
  | TapEvent.sleep d :: r => d + sleepsToNextWrite r
  | TapEvent.home :: r => sleepsToNextWrite r

/-- How long the first tap holds the wrist down: the silence between the
first (down) and second (up) writes of the trace. -/
def firstDownDuration (evs : List TapEvent) : ℚ :=
  sleepsToNextWrite ((dropToFirstWrite evs).drop 1)

/-- The silence between the first tap's up write and the following down
write: the intra-symbol, inter-letter or inter-word gap the listener
perceives after the first symbol. -/
def gapAfterFirstTap (evs : List TapEvent) : ℚ :=
  let afterDown := (dropToFirstWrite evs).drop 1
  sleepsToNextWrite ((dropToFirstWrite afterDown).drop 1)

/-! ## Plan executor (`agent_executor.py`)

`execute_plan` is modelled as a function from a plan to the sequence of
robot-facade calls, TTS calls, warnings and sleeps it issues (`RAction`).
Python exceptions escaping `execute_plan` (failed `int()`/`float()`
conversions of malformed arguments, non-dict payloads) are modelled by
`Except.error`; on an error the partial trace is not retained — settled
claims only concern executions that complete.  Reference-motion position
tables are modelled with integer positions (well-formed reference files). -/

end VC

deriving instance DecidableEq for Except

namespace VC

/-- Parse an optionally signed decimal integer with surrounding whitespace,
as Python `int(str)`. -/
def parseIntStr (s : String) : Option Int :=
  let l := (dropLeading isPyWs (dropLeading isPyWs s.data.reverse).reverse)
  let core : List Char → Option Int := fun ds =>
    if ds ≠ [] ∧ ds.all isDigit then some (natOfDigits ds) else none
  match l with
  | '-' :: ds => (core ds).map (fun n => -n)
  | '+' :: ds => core ds
  | ds => core ds

/-- Parse an optionally signed decimal number, as Python `float(str)` on the
plain forms the planner produces (exponents, `inf`, `nan` are not modelled —
no plan carries them). -/
def parseFloatStr (s : String) : Option PyNum :=
  let l := (dropLeading isPyWs (dropLeading isPyWs s.data.reverse).reverse)
  let core : List Char → Option PyNum := fun ds =>
    if ds.all isNumChar then numValue ds else none
  match l with
  | '-' :: ds => (core ds).map PyNum.neg
  | '+' :: ds => core ds
  | ds => core ds

/-- Python `int(x)` on a primitive: ints pass, floats truncate, strings must
parse as integers; anything else raises. -/
def pyIntP : Prim → Except String Int
  | .i n => .ok n
  | .q v => .ok v.trunc
  | .s st =>
    match parseIntStr st with
    | some n => .ok n
    | none => .error "invalid literal for int()"

/-- Python `float(x)` on a primitive. -/
def pyFloatP : Prim → Except String PyNum
  | .i n => .ok (PyNum.ofInt n)
  | .q v => .ok v
  | .s st =>
    match parseFloatStr st with
    | some v => .ok v
    | none => .error "could not convert string to float"

/-- Python `str(x)` on a primitive.  Floats render as `fmtG3`; CPython uses
the shortest-repr algorithm instead, but no settled claim converts a float to
text here. -/
def pyStrP : Prim → String
  | .s v => v
  | .i n => toString n
  | .q v => fmtG3 v

/-- Python `int(x)` on an argument value; dicts and lists raise. -/
def pyIntJ : JVal → Except String Int
  | .p v => pyIntP v
  | _ => .error "int() argument must not be a container"

/-- Python `float(x)` on an argument value. -/
def pyFloatJ : JVal → Except String PyNum
  | .p v => pyFloatP v
  | _ => .error "float() argument must not be a container"

/-- Python `str(x)` on an argument value (container rendering is a
placeholder; no settled claim stringifies a container). -/
def pyStrJ : JVal → String
  | .p v => pyStrP v
  | .jm _ => "{...}"
  | .steps _ => "[...]"

/-- One reference-motion playback step: a position table and a duration in
seconds. -/
structure MotionStep where
  positions : List (String × Int)
  duration : PyNum
deriving DecidableEq, Repr

/-- The reference-motion library (`references.json`): named motions and an
optional home pose (empty list = absent). -/
structure RefLib where
  motions : List (String × List MotionStep)
  home_pose : List (String × Int)
deriving DecidableEq, Repr

/-- `reference_motions.get_motion`: the named motion or the empty list. -/
def getMotion (name : String) (refs : RefLib) : List MotionStep :=
  (alistGet refs.motions name).getD []

/-- The executor's environment: the reference library and the calibration
home pose (empty list = absent), as loaded by `load_references` /
`load_calibration`. -/
structure ExecEnv where
  refs : RefLib
  calib_home : List (String × Int)
deriving DecidableEq, Repr

/-- An environment with no reference files and no calibration file. -/
def emptyEnv : ExecEnv := ⟨⟨[], []⟩, []⟩

/-- An observable action of the executor: a robot-facade call, a TTS call, a
sleep, a warning, or the closing `go_home`. -/
inductive RAction where
  | speak (msg : String)
  | waveR (repetitions : Int)
  | tapMorse (text : String) (unitMs : Int)
  | danceR (style : String) (durationS : Int)
  | drawShape (shape : String) (sizeMm : Int)
  | sleep (secs : PyNum)
  | moveJoint (joint : String) (pos : Int)
  | moveJoints (vals : List (String × Int))
  | relativeMove (deltas : List (String × Int))
  | openG
  | closeG
  | warnUnknownCall (name : String)
  | warnUnknownMotion (name : String)
  | goHome
deriving DecidableEq, Repr

/-- Coerce every joint value of a map with `int(v)` (the comprehension
`{k: int(v) for k, v in ...}` or the per-entry `int(p)` of
`AgentRobot.move_joints`); the first failure raises. -/
def seqInts : List (String × Prim) → Except String (List (String × Int))
  | [] => .ok []
  | (j, v) :: r =>
    match pyIntP v with
    | .ok n => (seqInts r).map (fun rest => (j, n) :: rest)
    | .error e => .error e

/-- Is a primitive falsy in Python? -/
def primFalsy : Prim → Bool
  | .s st => st = ""
  | .i n => n = 0
  | .q v => v.num = 0

/-- The actions of one reference-motion (or canned-dance) playback step:
write the positions, then sleep `min(duration, 5.0)` when the duration is
positive. -/
def playMotion (steps : List MotionStep) : List RAction :=
  (steps.map (fun st =>
    RAction.moveJoints st.positions ::
      (if PyNum.lt ⟨0, 1⟩ st.duration then [RAction.sleep (PyNum.pymin st.duration ⟨5, 1⟩)]
       else []))).flatten

/-- One trajectory sub-step (`execute_plan` lines 69-86): a `wait` entry
sleeps `max(0.0, float(w))` — uncapped — falling back to `0.1` when the
conversion fails; `move_joints` / `relative_move` entries forward to the
robot facade. -/
def execTrajSub (st : TrajStep) : Except String (List RAction) :=
  if hasKey st "wait" then
    match (alistGet st "wait").getD (TrajVal.p (.q ⟨1, 10⟩)) with
    | TrajVal.p v =>
      match pyFloatP v with
      | .ok w => .ok [RAction.sleep (PyNum.pymax ⟨0, 1⟩ w)]
      | .error _ => .ok [RAction.sleep ⟨1, 10⟩]
    | TrajVal.jm _ => .ok [RAction.sleep ⟨1, 10⟩]
  else if hasKey st "move_joints" then
    match (alistGet st "move_joints").getD (TrajVal.jm []) with
    | TrajVal.jm m =>
      match seqInts m with
      | .ok vals => .ok [RAction.moveJoints vals]
      | .error e => .error e
    | TrajVal.p _ => .error "cannot convert to dict"
  else if hasKey st "relative_move" then
    match (alistGet st "relative_move").getD (TrajVal.jm []) with
    | TrajVal.jm m =>
      match seqInts m with
      | .ok vals => .ok [RAction.relativeMove vals]
      | .error e => .error e
    | TrajVal.p _ => .error "cannot convert to dict"
  else .ok []

/-- All sub-steps of a trajectory in order. -/
def execTrajSubs : List TrajStep → Except String (List RAction)
  | [] => .ok []
  | st :: r =>
    match execTrajSub st with
    | .ok tr =>
      match execTrajSubs r with
      | .ok tail => .ok (tr ++ tail)
      | .error e => .error e
    | .error e => .error e

/-- One step of `execute_plan`: the issued actions and whether the step set
`did_motion`. -/
def execStep (env : ExecEnv) (s : Step) : Except String (List RAction × Bool) :=
  let name := pyLower s.call
  let args := s.args
  if name = "speak" then
    let msg := pyStrJ (argGetD args "text" (JVal.str ""))
    .ok ((if msg = "" then [] else [RAction.speak msg]), false)
  else if name = "wave" then
    match pyIntJ (argGetD args "repetitions" (JVal.int 1)) with
    | .ok r => .ok ([RAction.waveR r], true)
    | .error e => .error e
  else if name = "tap_morse" then
    match pyIntJ (argGetD args "unit_ms" (JVal.int 150)) with
    | .ok u => .ok ([RAction.tapMorse (pyStrJ (argGetD args "text" (JVal.str "sos"))) u], false)
    | .error e => .error e
  else if name = "dance" then
    let steps := getMotion "dance" env.refs
    if steps.isEmpty then
      match pyIntJ (argGetD args "duration_s" (JVal.int 6)) with
      | .ok d => .ok ([RAction.danceR (pyStrJ (argGetD args "style" (JVal.str "small"))) d], true)
      | .error e => .error e
    else .ok (playMotion steps, true)
  else if name = "draw_shape" then
    match pyIntJ (argGetD args "size_mm" (JVal.int 60)) with
    | .ok sz => .ok ([RAction.drawShape (pyStrJ (argGetD args "shape" (JVal.str "circle"))) sz], true)
    | .error e => .error e
  else if name = "wait" then
    match pyFloatJ (argGetD args "seconds" (JVal.p (.q ⟨5, 10⟩))) with
    | .ok v => .ok ([RAction.sleep (PyNum.pymin (PyNum.pymax ⟨0, 1⟩ v) ⟨10, 1⟩)], false)
    | .error e => .error e
  else if name = "move_joint" then
    match pyIntJ (argGetD args "position" (JVal.int 2048)) with
    | .ok p => .ok ([RAction.moveJoint (pyStrJ (argGetD args "name" (JVal.str ""))) p], true)
    | .error e => .error e
  else if name = "move_joints" then
    match argGetD args "values" (JVal.jm []) with
    | JVal.jm m =>
      match seqInts m with
      | .ok vals => .ok ([RAction.moveJoints vals], true)
      | .error e => .error e
    | _ => .error "cannot convert to dict"
  else if name = "relative_move" then
    match argGetD args "deltas" (JVal.jm []) with
    | JVal.jm m =>
      match seqInts m with
      | .ok vals => .ok ([RAction.relativeMove vals], true)
      | .error e => .error e
    | _ => .error "cannot convert to dict"
  else if name = "open_gripper" then .ok ([RAction.openG], true)
  else if name = "close_gripper" then .ok ([RAction.closeG], true)
  else if name = "trajectory" then
    match argGetD args "steps" (JVal.steps []) with
    | JVal.steps sts =>
      match execTrajSubs sts with
      | .ok tr => .ok (tr, true)
      | .error e => .error e
    | JVal.p v => if primFalsy v then .ok ([], true) else .error "not iterable"
    | JVal.jm m => if m.isEmpty then .ok ([], true) else .error "no attribute get"
  else if name = "reference_motion" then
    let mn := pyStrip (pyLower (pyStrJ (argGetD args "name" (JVal.str ""))))
    let steps := getMotion mn env.refs
    if steps.isEmpty then .ok ([RAction.warnUnknownMotion mn], false)
    else
      let home := if env.calib_home.isEmpty then env.refs.home_pose else env.calib_home
      let stage := if home.isEmpty then [] else [RAction.moveJoints home, RAction.sleep ⟨6, 10⟩]
      let post := if home.isEmpty then [] else [RAction.moveJoints home, RAction.sleep ⟨8, 10⟩]
      .ok (stage ++ playMotion steps ++ post, true)
  else .ok ([RAction.warnUnknownCall name], false)

/-- The step loop of `execute_plan`, threading `did_motion`; after the last
step, a set flag issues the closing `go_home()` (whose own failure the source
swallows). -/
def execSteps (env : ExecEnv) : List Step → Bool → Except String (List RAction)
  | [], did => .ok (if did then [RAction.goHome] else [])
  | s :: rest, did =>
    match execStep env s with
    | .error e => .error e
    | .ok (tr, m) =>
      match execSteps env rest (did || m) with
      | .error e => .error e
      | .ok tail => .ok (tr ++ tail)

/-- `execute_plan(plan, robot)`: the full action trace. -/
def execute_plan (env : ExecEnv) (plan : Plan) : Except String (List RAction) :=
  execSteps env plan false

/-- The enumerated tool names the executor dispatches on. -/
def knownCalls : List String :=
  ["speak", "wave", "tap_morse", "dance", "draw_shape", "wait", "move_joint",
   "move_joints", "relative_move", "open_gripper", "close_gripper", "trajectory",
   "reference_motion"]

/-- Does a step register `did_motion` when executed?  Mirrors the dispatch of
`execute_plan`: every motion tool does; `speak`, `tap_morse`, `wait`, unknown
calls, and a `reference_motion` whose name resolves to no known motion do
not. -/
def triggersMotion (env : ExecEnv) (s : Step) : Bool :=
  let name := pyLower s.call
  if name = "speak" then false
  else if name = "wave" then true
  else if name = "tap_morse" then false
  else if name = "dance" then true
  else if name = "draw_shape" then true
  else if name = "wait" then false
  else if name = "move_joint" then true
  else if name = "move_joints" then true
  else if name = "relative_move" then true
  else if name = "open_gripper" then true
  else if name = "close_gripper" then true
  else if name = "trajectory" then true
  else if name = "reference_motion" then
    !(getMotion (pyStrip (pyLower (pyStrJ (argGetD s.args "name" (JVal.str ""))))) env.refs).isEmpty
  else false

end VC

-- sanity examples for the string layer
example : VC.pyLower "What IS 3" = "what is 3" := by decide
example : VC.pyStrip "  what is 3 times 4?  " = "what is 3 times 4?" := by decide
example : VC.pyIn " times " "what is 3 times 4?" = true := by decide
example : VC.pyIn " better " "cats or dogs, which is better?" = false := by decide
example : VC.pyReplace "what is 3 times 4?" "what is" "" = " 3 times 4?" := by decide
example : VC.pyReplace " 3 times 4?" "times" "*" = " 3 * 4?" := by decide
example : VC.arithFilter " 3 * 4?" = " 3 * 4" := by decide
example : VC.stripChars (fun c => c = ' ' ∨ c = '?') " 3 * 4" = "3 * 4" := by decide
example : VC.pySplitWs "tap sos now" = ["tap", "sos", "now"] := by decide
example : VC.pyEnds "?" "cats or dogs, which is better?" = true := by decide
example : VC.pyStarts "is " "cats or dogs, which is better?" = false := by decide

-- sanity examples for the arithmetic evaluator
example : VC.pyEval "3 * 4" = some ⟨12, 1⟩ := by decide
example : VC.pyEval "3 + 4" = some ⟨7, 1⟩ := by decide
example : (VC.pyEval "7 / 2").map (fun v => VC.PyNum.eqv v ⟨7, 2⟩) = some true := by decide
example : (VC.pyEval "- 5").map (fun v => VC.PyNum.eqv v ⟨-5, 1⟩) = some true := by decide
example : (VC.pyEval "(1 + 2) * 3").map (fun v => VC.PyNum.eqv v ⟨9, 1⟩) = some true := by decide
example : VC.pyEval "3 4" = none := by decide
example : VC.pyEval "3 / 0" = none := by decide
example : VC.pyEval "" = none := by decide
example : (VC.pyEval "3.5 + 1").map (fun v => VC.PyNum.eqv v ⟨9, 2⟩) = some true := by decide

example : VC.pyEval "3 ** 2" = some ⟨9, 1⟩ := by decide
example : (VC.pyEval "2 ** 3 ** 2").map (fun v => VC.PyNum.eqv v ⟨512, 1⟩) = some true := by decide
example : (VC.pyEval "-3 ** 2").map (fun v => VC.PyNum.eqv v ⟨-9, 1⟩) = some true := by decide
example : (VC.pyEval "2 ** -1").map (fun v => VC.PyNum.eqv v ⟨1, 2⟩) = some true := by decide
example : VC.pyEval "0 ** -1" = none := by decide
example : VC.pyEval "2 ** 0.5" = none := by decide
example : (VC.pyEval "3 ** 2 * 2").map (fun v => VC.PyNum.eqv v ⟨18, 1⟩) = some true := by decide
example : (VC.pyEval "10 // 3").map (fun v => VC.PyNum.eqv v ⟨3, 1⟩) = some true := by decide
example : (VC.pyEval "-7 // 2").map (fun v => VC.PyNum.eqv v ⟨-4, 1⟩) = some true := by decide
example : (VC.pyEval "7 // 0.5").map (fun v => VC.PyNum.eqv v ⟨14, 1⟩) = some true := by decide
example : VC.pyEval "7 // 0" = none := by decide
example : VC.pyEval "07 + 1" = none := by decide
example : (VC.pyEval "00 + 1").map (fun v => VC.PyNum.eqv v ⟨1, 1⟩) = some true := by decide
example : (VC.pyEval "00.5 + 1").map (fun v => VC.PyNum.eqv v ⟨3, 2⟩) = some true := by decide
example : VC.PyNum.nearInt ⟨12, 1⟩ = true := by decide
example : VC.PyNum.nearInt ⟨7, 2⟩ = false := by decide
example : VC.PyNum.trunc ⟨-7, 2⟩ = -3 := by decide
example : toString (12 : Int) = "12" := by decide
example : toString (-3 : Int) = "-3" := by decide

-- sanity examples for the planner
example : VC.arithAnswer "what is 3 times 4?" = some "12" := by decide
example : VC.rulePlan "3 plus 4" = [VC.flourishTraj] := by decide
example : VC.planAllFail (fun _ => 0) [] "3 plus 4" = [VC.tapMorseStep "7"] := by decide
example : VC.planAllFail (fun _ => 0) [] "what is 3 times 4?" = [VC.tapMorseStep "12"] := by decide
example : VC.planAllFail (fun _ => 0) [] "cats or dogs, which is better?" =
    [VC.refMotionStep "dunno"] := by decide
example : VC.planAllFail (fun _ => 0) [] "stop" = [] := by decide
example : VC.rulePlan "open the gripper then close it" =
    [⟨"open_gripper", []⟩, VC.waitStep ⟨4, 10⟩, ⟨"close_gripper", []⟩] := by decide
example : VC.pairMatches "which is better cats or dogs?" = [("cats", "dogs")] := by decide
example : VC.pairMatches "cats or dogs, which is better?" = [("cats", "dogs")] := by decide
example : VC.fastPref (fun _ => 0) "which is better cats or dogs?" =
    some [VC.tapMorseStep "cats"] := by decide
example : VC.fastPref (fun _ => 1) "which is better cats or dogs?" =
    some [VC.tapMorseStep "dogs"] := by decide
example : VC.fastPref (fun _ => 0) "cats or dogs, which is better?" = none := by decide
example : VC.rulePlan "is the sky green?" = [VC.refMotionStep "no"] := by decide
example : VC.rulePlan "wave at me" = [⟨"wave", [("repetitions", VC.JVal.int 1)]⟩] := by decide
example : VC.rulePlan "tap morse hello please" = [VC.tapMorseStep "morse"] := by decide

example : VC.fastArith "3 ** 2" = some "9" := by decide
example : VC.planAllFail (fun _ => 0) [] "3 ** 2" = [VC.tapMorseStep "9"] := by decide
example : VC.planAllFail (fun _ => 0) [] "7 - 4" = [VC.flourishTraj] := by decide
example : VC.planOllamaFail (fun _ => 0) [] "7 - 4" = [VC.tapMorseStep "3"] := by decide
example : VC.repairToJson (fun _ => 0) "7 - 4" "\n" = some [VC.tapMorseStep "3"] := by decide
example : VC.planOllamaFail (fun _ => 0) [] "cats or dogs, which is better?" =
  [VC.tapMorseStep "cats"] := by decide
example : VC.planOllamaFail (fun _ => 1) [] "cats or dogs, which is better?" =
  [VC.tapMorseStep "dogs"] := by decide
example : VC.salvagePlan (fun _ => 0) "do you prefer x" "\n" =
  some [VC.refMotionStep "dunno"] := by decide
example : VC.planOllamaFail (fun _ => 0) [] "do a dance" = [VC.refMotionStep "dance"] := by decide
example : VC.findTapWord "please tap morse sos now" = some "sos" := by decide
example : VC.findTapWord "tap morse !" = some "morse" := by decide
example : VC.findTapWord "no taps here" = none := by decide

-- sanity examples for the executor
example : VC.execute_plan VC.emptyEnv [⟨"levitate", []⟩, ⟨"wave", []⟩] =
    .ok [VC.RAction.warnUnknownCall "levitate", VC.RAction.waveR 1, VC.RAction.goHome] := by decide
example : VC.execute_plan VC.emptyEnv [⟨"reference_motion", [("name", VC.JVal.str "zzz")]⟩] =
    .ok [VC.RAction.warnUnknownMotion "zzz"] := by decide
example : VC.execute_plan VC.emptyEnv [⟨"speak", [("text", VC.JVal.str "hi")]⟩,
    ⟨"tap_morse", [("text", VC.JVal.str "sos")]⟩] =
    .ok [VC.RAction.speak "hi", VC.RAction.tapMorse "sos" 150] := by decide
example : VC.execute_plan VC.emptyEnv
    [⟨"trajectory", [("steps", VC.JVal.steps [[("wait", VC.TrajVal.p (.q ⟨20, 1⟩))]])]⟩] =
    .ok [VC.RAction.sleep ⟨20, 1⟩, VC.RAction.goHome] := by decide
example : VC.execute_plan VC.emptyEnv [⟨"wait", [("seconds", VC.JVal.p (.q ⟨20, 1⟩))]⟩] =
    .ok [VC.RAction.sleep ⟨10, 1⟩] := by decide
example : VC.execTrajSub [("wait", VC.TrajVal.p (.s "abc"))] =
    .ok [VC.RAction.sleep ⟨1, 10⟩] := by decide
example : VC.execute_plan VC.emptyEnv [⟨"wave", [("repetitions", VC.JVal.str "abc")]⟩] =
    .error "invalid literal for int()" := by decide

namespace VC

/-! ## Claim theorems -/

/-- C1 (counterexample): the claimed clamping invariant fails on the canned
gestures.  With a loadable joint-limits file restricting `wrist_roll` to
`(2000, 2100)`, `RobotController.wave` still writes the fixed position `1600`
to `wrist_roll` — below the loaded minimum — because the gesture writes to
the bus directly without consulting the limits map. -/
theorem C1_clamping_counterexample :
    ("wrist_roll", (1600 : Int)) ∈ waveWrites defaultCalib 1 ∧
    alistGet (load_joint_limits (some [("wrist_roll", (2000, 2100))])) "wrist_roll" =
      some (2000, 2100) ∧
    ¬ ((2000 : Int) ≤ 1600) := by decide

/-- C1 (amended): positions written through `AgentRobot.move_joint` (hence
`move_joints`, `relative_move` and the gripper helpers) satisfy
`limits[j].min ≤ written ≤ limits[j].max` whenever the joint is a key of the
loaded limits map with a well-formed interval; the canned gestures issue
their writes without clamping (see the counterexample). -/
theorem C1_clamped_when_mapped (limits : Limits) (name : String) (position mn mx : Int)
    (h : alistGet limits name = some (mn, mx)) (hw : mn ≤ mx) :
    mn ≤ agentMoveJoint limits name position ∧ agentMoveJoint limits name position ≤ mx := by
  simp only [agentMoveJoint, h]
  omega

/-- Witness for C1 (amended) at a concrete loaded limits map and request. -/
theorem C1_clamped_when_mapped_witness :
    (2000 : Int) ≤ agentMoveJoint (load_joint_limits (some [("wrist_roll", (2000, 2100))]))
        "wrist_roll" 1600 ∧
    agentMoveJoint (load_joint_limits (some [("wrist_roll", (2000, 2100))])) "wrist_roll" 1600 ≤
      2100 :=
  C1_clamped_when_mapped _ _ 1600 2000 2100 (by decide) (by decide)

/-- C10: `AgentRobot.move_joint` clamps only joints present in the loaded
limits map — any joint name absent from the map has its requested position
written unchanged — and the fallback limits map covers exactly the six named
joints, so any other name passes through. -/
theorem C10_unmapped_joint_passthrough :
    (∀ (limits : Limits) (name : String) (position : Int),
        alistGet limits name = none → agentMoveJoint limits name position = position) ∧
    (∀ name : String,
        name ∉ ["shoulder_pan", "shoulder_lift", "elbow_flex", "wrist_flex", "wrist_roll",
          "gripper"] →
        alistGet fallbackLimits name = none) := by
  constructor
  · intro limits name position h
    simp [agentMoveJoint, h]
  · intro name h
    simp only [List.mem_cons, List.not_mem_nil, or_false, not_or] at h
    obtain ⟨h1, h2, h3, h4, h5, h6⟩ := h
    have b1 : ("shoulder_pan" == name) = false := beq_eq_false_iff_ne.mpr (Ne.symm h1)
    have b2 : ("shoulder_lift" == name) = false := beq_eq_false_iff_ne.mpr (Ne.symm h2)
    have b3 : ("elbow_flex" == name) = false := beq_eq_false_iff_ne.mpr (Ne.symm h3)
    have b4 : ("wrist_flex" == name) = false := beq_eq_false_iff_ne.mpr (Ne.symm h4)
    have b5 : ("wrist_roll" == name) = false := beq_eq_false_iff_ne.mpr (Ne.symm h5)
    have b6 : ("gripper" == name) = false := beq_eq_false_iff_ne.mpr (Ne.symm h6)
    simp [alistGet, fallbackLimits, List.find?, b1, b2, b3, b4, b5, b6]

/-- Witness for C10 at a concrete unmapped joint. -/
theorem C10_unmapped_joint_passthrough_witness :
    agentMoveJoint (load_joint_limits none) "foo" 9999 = 9999 ∧
    alistGet fallbackLimits "foo" = none :=
  ⟨C10_unmapped_joint_passthrough.1 _ "foo" 9999 (by decide),
   C10_unmapped_joint_passthrough.2 "foo" (by decide)⟩

/-- C5 (counterexample): cache values are NOT deep-copied on read.  The read
`[dict(step) for step in cached]` shares the nested args dict, so mutating
the first returned plan's args mapping changes what the second call
returns. -/
theorem C5_cache_alias_counterexample :
    (let store : ArgsStore := [[("text", JVal.str "7")]]
     let cached : List CStep := [⟨"tap_morse", 0⟩]
     let firstCall := readCacheSteps cached
     let store2 := writeArgs store ((firstCall.headD ⟨"", 0⟩).ref) [("text", JVal.str "sos")]
     materialize store2 (readCacheSteps cached) ≠ materialize store cached) := by decide

/-- C5 (amended): the cache read is a shallow copy — a second read of an
unchanged cache yields a structurally equal plan, and the args references of
the copied steps are the cached ones (shared, not deep-copied), which is why
in-place mutation of a returned step's args leaks into later reads. -/
theorem C5_cache_shallow_amended (store : ArgsStore) (cached : List CStep) :
    materialize store (readCacheSteps cached) = materialize store cached ∧
    (readCacheSteps cached).map CStep.ref = cached.map CStep.ref := by
  constructor <;> induction cached with
  | nil => rfl
  | cons s rest ih => simp_all [readCacheSteps, materialize, derefStep]

/-- Witness for C5 (amended) at a concrete store and cached plan. -/
theorem C5_cache_shallow_amended_witness :
    materialize [[("text", JVal.str "7")]] (readCacheSteps [⟨"tap_morse", 0⟩]) =
      materialize [[("text", JVal.str "7")]] [⟨"tap_morse", 0⟩] ∧
    (readCacheSteps [(⟨"tap_morse", 0⟩ : CStep)]).map CStep.ref =
      [(⟨"tap_morse", 0⟩ : CStep)].map CStep.ref :=
  C5_cache_shallow_amended [[("text", JVal.str "7")]] [⟨"tap_morse", 0⟩]

/-- C7: the arithmetic scenario.  `plan("what is 3 times 4?")` is answered by
the literal arithmetic fast path (which precedes every generation attempt in
the source), producing exactly the one-step plan `[{tap_morse, text:"12"}]`
for any choice-hash state and an empty cache. -/
theorem C7_arithmetic_scenario (hv : String → Nat) :
    fastArith (pyLower (pyStrip "what is 3 times 4?")) = some "12" ∧
    planAllFail hv [] "what is 3 times 4?" = [tapMorseStep "12"] := by
  have e0 : pyStrip "what is 3 times 4?" = "what is 3 times 4?" := by decide
  have e2 : pyLower "what is 3 times 4?" = "what is 3 times 4?" := by decide
  have e1 : alistGet ([] : List (String × Plan)) "what is 3 times 4?" = none := rfl
  have e3 : fastArith "what is 3 times 4?" = some "12" := by decide
  have e5 : fastPref hv "what is 3 times 4?" = none := by
    have hkeys : (prefKeys.any fun k => pyIn k (pyLower "what is 3 times 4?")) = false := by
      decide
    simp [fastPref, hkeys]
  refine ⟨by rw [e0, e2]; exact e3, ?_⟩
  unfold planAllFail
  simp only [e0, e2, e1, e3, e5]
  decide

/-- Witness for C7 at a concrete choice-hash state. -/
theorem C7_arithmetic_scenario_witness :
    planAllFail (fun _ => 0) [] "what is 3 times 4?" = [tapMorseStep "12"] :=
  (C7_arithmetic_scenario (fun _ => 0)).2

/-- C4 (counterexample): with every backend failing, `plan` does not always
agree with `_rule_plan`: on `"3 plus 4"` the arithmetic fast path (which has
no question-mark requirement) answers `tap_morse "7"`, while `_rule_plan`
reaches none of its patterns and emits the default flourish trajectory. -/
theorem C4_fallback_counterexample :
    planAllFail (fun _ => 0) [] "3 plus 4" = [tapMorseStep "7"] ∧
    rulePlan "3 plus 4" = [flourishTraj] ∧
    planAllFail (fun _ => 0) [] "3 plus 4" ≠ rulePlan "3 plus 4" := by decide

/-- C4 (amended): when every backend fails, generation ends in one of two
ways.  If it yields no raw text (timeout/exception, or an immediate fallback
with the planner already marked failed and no endpoint configured), then
`plan(text)` equals `_rule_plan` on the stripped text for every input not
intercepted by the exact-text cache or by the trigger keywords of the two
pre-generation fast paths.  If instead an Ollama model is configured but
unreachable, generation returns empty text and `plan` additionally runs the
repair/salvage heuristics over the user text before the rule fallback: these
can answer differently from `_rule_plan` — on `"7 - 4"` repair answers
`tap_morse "3"` where `_rule_plan` gives the flourish trajectory — and this
mode too reduces to `_rule_plan` when the text also contains no bare
operator character and no bare preference word. -/
theorem C4_fallback_amended (hv : String → Nat) (cache : List (String × Plan))
    (user_text : String)
    (h1 : alistGet cache (pyStrip user_text) = none)
    (h2 : ∀ k ∈ arithKeys, pyIn k (pyLower (pyStrip user_text)) = false)
    (h3 : ∀ k ∈ prefKeys, pyIn k (pyLower (pyStrip user_text)) = false) :
    planAllFail hv cache user_text = rulePlan (pyStrip user_text) ∧
    planOllamaFail (fun _ => 0) [] "7 - 4" = [tapMorseStep "3"] ∧
    rulePlan (pyStrip "7 - 4") = [flourishTraj] ∧
    ((∀ k ∈ ["+", "-", "*", "/", "better", "favorite", "prefer"],
        pyIn k (pyLower (pyStrip user_text)) = false) →
      planOllamaFail hv cache user_text = rulePlan (pyStrip user_text)) := by
  have e2 : fastArith (pyLower (pyStrip user_text)) = none := by
    have hany : (arithKeys.any fun k => pyIn k (pyLower (pyStrip user_text))) = false := by
      rw [List.any_eq_false]
      intro k hk
      simp [h2 k hk]
    simp [fastArith, hany]
  have e3 : fastPref hv (pyStrip user_text) = none := by
    have hany : (prefKeys.any fun k => pyIn k (pyLower (pyStrip user_text))) = false := by
      rw [List.any_eq_false]
      intro k hk
      simp [h3 k hk]
    simp [fastPref, hany]
  refine ⟨?_, by decide, by decide, ?_⟩
  · unfold planAllFail
    simp only [h1, e2, e3]
    split_ifs with he hstop
    · rw [he]
      decide
    · unfold rulePlan
      rcases hstop with h | h | h <;> rw [h] <;> decide
    · rfl
  · intro h4
    have b1 := h4 "+" (by decide)
    have b2 := h4 "-" (by decide)
    have b3 := h4 "*" (by decide)
    have b4 := h4 "/" (by decide)
    have b5 := h4 "better" (by decide)
    have b6 := h4 "favorite" (by decide)
    have b7 := h4 "prefer" (by decide)
    have hrk : repairKeywords (pyLower (pyStrip user_text)) (pyLower "\n") = none := by
      simp +decide [repairKeywords, b1, b2, b3, b4]
    have hrep : repairToJson hv (pyStrip user_text) "\n" = none := by
      simp +decide [repairToJson, b5, b6, b7, hrk]
    have hord : salvageKeyTable.filterMap
        (fun kk => if kk.2.any (fun k => pyIn k (pyLower "\n")) then some kk.1 else none) =
        [] := by decide
    have hsal : salvagePlan hv (pyStrip user_text) "\n" = none := by
      simp +decide [salvagePlan, hord, b5, b6, b7]
    unfold planOllamaFail
    simp only [h1, e2, e3, hrep, hsal]
    split_ifs with he hstop
    · rw [he]
      decide
    · unfold rulePlan
      rcases hstop with h | h | h <;> rw [h] <;> decide
    · rfl

/-- Witness for C4 (amended) at a concrete text outside every fast path and
every repair/salvage trigger, in both failure modes. -/
theorem C4_fallback_amended_witness :
    planAllFail (fun _ => 0) [] "do a dance" = rulePlan (pyStrip "do a dance") ∧
    planOllamaFail (fun _ => 0) [] "do a dance" = rulePlan (pyStrip "do a dance") :=
  ⟨(C4_fallback_amended (fun _ => 0) [] "do a dance" (by decide) (by decide) (by decide)).1,
   (C4_fallback_amended (fun _ => 0) [] "do a dance" (by decide) (by decide)
     (by decide)).2.2.2 (by decide)⟩

/-- C6 (counterexample): on the exact input `"cats or dogs, which is
better?"` the preference fast path does not fire — its keyword check looks
for `" better "` with a trailing space, absent when the text ends in
`"better?"` — so with failing backends the planner returns the rule
fallback's single `reference_motion dunno` step, not a tap_morse tactile
answer. -/
theorem C6_preference_counterexample :
    planAllFail (fun _ => 0) [] "cats or dogs, which is better?" = [refMotionStep "dunno"] ∧
    (refMotionStep "dunno").call ≠ "tap_morse" := by decide

/-- C6 (amended): on `"cats or dogs, which is better?"` the preference fast
path never fires (its `" better "` keyword needs a trailing space), and the
result depends on how the backends fail.  In the no-raw-text failure mode two
successive calls both return the identical single `reference_motion
{name: dunno}` step, independent of the choice-hash state.  In the
Ollama-unreachable mode the first call falls through to `_repair_to_json`,
whose space-free `better` check does match this phrasing, and returns the
single hash-chosen `tap_morse` step (`cats` or `dogs`); that failed call
marks the planner failed, so the second call gets no raw text and returns the
rule fallback's `dunno` — the two calls differ, and in neither mode are both
calls the tap_morse answer the original claim describes. -/
theorem C6_preference_amended (hv hv2 : String → Nat) :
    planAllFail hv [] "cats or dogs, which is better?" = [refMotionStep "dunno"] ∧
    planAllFail hv [] "cats or dogs, which is better?" =
      planAllFail hv2 [] "cats or dogs, which is better?" ∧
    planOllamaFail hv [] "cats or dogs, which is better?" =
      [tapMorseStep (if hv "cats or dogs, which is better?" % 2 = 0 then "cats" else "dogs")] ∧
    planOllamaFail hv [] "cats or dogs, which is better?" ≠
      planAllFail hv [] "cats or dogs, which is better?" := by
  have key : ∀ h : String → Nat,
      planAllFail h [] "cats or dogs, which is better?" = [refMotionStep "dunno"] := by
    intro h
    have e0 : pyStrip "cats or dogs, which is better?" = "cats or dogs, which is better?" := by
      decide
    have e5 : fastPref h "cats or dogs, which is better?" = none := by
      have hkeys :
          (prefKeys.any fun k => pyIn k (pyLower "cats or dogs, which is better?")) = false := by
        decide
      simp [fastPref, hkeys]
    unfold planAllFail
    simp only [e0, e5]
    decide
  have keyB : ∀ h : String → Nat,
      planOllamaFail h [] "cats or dogs, which is better?" =
        [tapMorseStep
          (if h "cats or dogs, which is better?" % 2 = 0 then "cats" else "dogs")] := by
    intro h
    have e0 : pyStrip "cats or dogs, which is better?" = "cats or dogs, which is better?" := by
      decide
    have e1 : alistGet ([] : List (String × Plan)) "cats or dogs, which is better?" = none := rfl
    have e2 : fastArith (pyLower "cats or dogs, which is better?") = none := by decide
    have e5 : fastPref h "cats or dogs, which is better?" = none := by
      have hkeys :
          (prefKeys.any fun k => pyIn k (pyLower "cats or dogs, which is better?")) = false := by
        decide
      simp [fastPref, hkeys]
    have hq : pyLower "cats or dogs, which is better?" = "cats or dogs, which is better?" := by
      decide
    have hpm : (pairMatches "cats or dogs, which is better?").getLast? =
        some ("cats", "dogs") := by decide
    have erep : repairToJson h "cats or dogs, which is better?" "\n" =
        some [tapMorseStep
          (if h "cats or dogs, which is better?" % 2 = 0 then "cats" else "dogs")] := by
      simp +decide [repairToJson, hq, hpm]
    unfold planOllamaFail
    simp only [e0, e1, e2, e5, erep]
    rw [if_neg (by decide), if_neg (by decide)]
  refine ⟨key hv, (key hv).trans (key hv2).symm, keyB hv, ?_⟩
  rw [keyB hv, key hv]
  by_cases hpar : hv "cats or dogs, which is better?" % 2 = 0
  · rw [if_pos hpar]
    decide
  · rw [if_neg hpar]
    decide

/-- Witness for C6 (amended) at two concrete choice-hash states. -/
theorem C6_preference_amended_witness :
    planAllFail (fun _ => 0) [] "cats or dogs, which is better?" = [refMotionStep "dunno"] :=
  (C6_preference_amended (fun _ => 0) (fun _ => 1)).1

/-- C3 (counterexample): the Morse timing law fails for dashes.  At
`unit_ms = 150` (`u = 0.15`) the wrist stays down for
`0.6·u + max(0.02, 0.4·(3u)) = 1.8·u = 0.27` seconds on a dash — not the
claimed `3·u = 0.45` — because the source splits the tap into a `0.6·u`
descent and a `0.4`-scaled dwell. -/
theorem C3_morse_timing_counterexample :
    firstDownDuration (tapMorseEvents 2188 2048 [] 150 [MorseToken.letter [MSym.dash]]) =
      27 / 100 ∧
    (27 / 100 : ℚ) ≠ 3 * (150 / 1000 : ℚ) := by
  have hmax : max ((2 : ℚ) / 100) (3 * (150 / 1000 : ℚ) * (4 / 10)) =
      3 * (150 / 1000 : ℚ) * (4 / 10) := by
    apply max_eq_right; norm_num
  constructor
  · simp [tapMorseEvents, tapTokenEvents, tapSymbolEvents, firstDownDuration,
      dropToFirstWrite, sleepsToNextWrite, hmax]
    norm_num
  · norm_num

/-- C3 (amended): for `u = unit_ms/1000` with `unit_ms ≥ 50` (so the `0.02 s`
dwell floor is inactive), the tap trace obeys: a dot holds down exactly
`1·u`, a dash holds down exactly `1.8·u`, the silence between two symbols of
one letter is `1·u`, the silence between two letters is `4·u` (the `1·u`
intra-symbol sleep plus the dedicated `3·u` inter-letter sleep), and the
silence across a word boundary is `11·u` (`1·u + 3·u + 7·u`). -/
theorem C3_morse_timing_amended (ums : ℚ) (hu : 50 ≤ ums) (down up : Int) :
    firstDownDuration (tapMorseEvents down up [] ums [MorseToken.letter [MSym.dot]]) =
      ums / 1000 ∧
    firstDownDuration (tapMorseEvents down up [] ums [MorseToken.letter [MSym.dash]]) =
      (18 / 10) * (ums / 1000) ∧
    gapAfterFirstTap (tapMorseEvents down up [] ums [MorseToken.letter [MSym.dot, MSym.dot]]) =
      ums / 1000 ∧
    gapAfterFirstTap (tapMorseEvents down up [] ums
      [MorseToken.letter [MSym.dot], MorseToken.letter [MSym.dot]]) = 4 * (ums / 1000) ∧
    gapAfterFirstTap (tapMorseEvents down up [] ums
      [MorseToken.letter [MSym.dot], MorseToken.space, MorseToken.letter [MSym.dot]]) =
      11 * (ums / 1000) := by
  have h1 : max ((2 : ℚ) / 100) (ums / 1000 * (4 / 10)) = ums / 1000 * (4 / 10) := by
    apply max_eq_right; linarith
  have h3 : max ((2 : ℚ) / 100) (3 * (ums / 1000) * (4 / 10)) = 3 * (ums / 1000) * (4 / 10) := by
    apply max_eq_right; linarith
  refine ⟨?_, ?_, ?_, ?_, ?_⟩ <;>
    simp [tapMorseEvents, tapTokenEvents, tapSymbolEvents, firstDownDuration, gapAfterFirstTap,
      dropToFirstWrite, sleepsToNextWrite, h1, h3] <;> ring

/-- Witness for C3 (amended) at the default `unit_ms = 150` and default tap
positions. -/
theorem C3_morse_timing_amended_witness :
    firstDownDuration (tapMorseEvents 2188 2048 [] 150 [MorseToken.letter [MSym.dot]]) =
      (150 : ℚ) / 1000 :=
  (C3_morse_timing_amended 150 (by norm_num) 2188 2048).1

/-- No reference-motion playback action is the executor closing `go_home`. -/
theorem goHome_not_mem_playMotion (steps : List MotionStep) :
    RAction.goHome ∉ playMotion steps := by
  intro hmem
  simp only [playMotion, List.mem_flatten, List.mem_map] at hmem
  obtain ⟨l, ⟨st, hst, rfl⟩, hin⟩ := hmem
  rcases List.mem_cons.mp hin with h | h
  · simp at h
  · split at h <;> simp_all

theorem goHome_not_mem_execTrajSub (st : TrajStep) (tr : List RAction)
    (h : execTrajSub st = .ok tr) : RAction.goHome ∉ tr := by
  unfold execTrajSub at h
  split_ifs at h
  all_goals repeat' split at h
  all_goals first
    | (injection h with h1; subst h1; simp)
    | injection h

theorem goHome_not_mem_execTrajSubs (sts : List TrajStep) (tr : List RAction)
    (h : execTrajSubs sts = .ok tr) : RAction.goHome ∉ tr := by
  induction sts generalizing tr with
  | nil =>
    simp only [execTrajSubs] at h
    injection h with h1
    subst h1
    simp
  | cons st r ih =>
    simp only [execTrajSubs] at h
    cases hx : execTrajSub st with
    | error e => rw [hx] at h; simp at h
    | ok tr1 =>
      rw [hx] at h
      cases hy : execTrajSubs r with
      | error e => rw [hy] at h; simp at h
      | ok tail =>
        rw [hy] at h
        injection h with h1
        subst h1
        intro hmem
        rcases List.mem_append.mp hmem with hm | hm
        · exact goHome_not_mem_execTrajSub st tr1 hx hm
        · exact ih tail hy hm

theorem execStep_spec (env : ExecEnv) (s : Step) (tr : List RAction) (m : Bool)
    (h : execStep env s = .ok (tr, m)) :
    m = triggersMotion env s ∧ RAction.goHome ∉ tr := by
  simp only [execStep] at h
  simp only [triggersMotion]
  by_cases c1 : pyLower s.call = "speak"
  · rw [if_pos c1] at h ⊢
    injection h with h1
    injection h1 with h2 h3
    subst h2; subst h3
    exact ⟨rfl, by split <;> simp⟩
  rw [if_neg c1] at h ⊢
  by_cases c2 : pyLower s.call = "wave"
  · rw [if_pos c2] at h ⊢
    repeat' split at h
    · injection h with h1
      injection h1 with h2 h3
      subst h2; subst h3
      exact ⟨rfl, by simp⟩
    · injection h
  rw [if_neg c2] at h ⊢
  by_cases c3 : pyLower s.call = "tap_morse"
  · rw [if_pos c3] at h ⊢
    repeat' split at h
    · injection h with h1
      injection h1 with h2 h3
      subst h2; subst h3
      exact ⟨rfl, by simp⟩
    · injection h
  rw [if_neg c3] at h ⊢
  by_cases c4 : pyLower s.call = "dance"
  · rw [if_pos c4] at h ⊢
    repeat' split at h
    · injection h with h1
      injection h1 with h2 h3
      subst h2; subst h3
      exact ⟨rfl, by simp⟩
    · injection h
    · injection h with h1
      injection h1 with h2 h3
      subst h2; subst h3
      exact ⟨rfl, goHome_not_mem_playMotion _⟩
  rw [if_neg c4] at h ⊢
  by_cases c5 : pyLower s.call = "draw_shape"
  · rw [if_pos c5] at h ⊢
    repeat' split at h
    · injection h with h1
      injection h1 with h2 h3
      subst h2; subst h3
      exact ⟨rfl, by simp⟩
    · injection h
  rw [if_neg c5] at h ⊢
  by_cases c6 : pyLower s.call = "wait"
  · rw [if_pos c6] at h ⊢
    repeat' split at h
    · injection h with h1
      injection h1 with h2 h3
      subst h2; subst h3
      exact ⟨rfl, by simp⟩
    · injection h
  rw [if_neg c6] at h ⊢
  by_cases c7 : pyLower s.call = "move_joint"
  · rw [if_pos c7] at h ⊢
    repeat' split at h
    · injection h with h1
      injection h1 with h2 h3
      subst h2; subst h3
      exact ⟨rfl, by simp⟩
    · injection h
  rw [if_neg c7] at h ⊢
  by_cases c8 : pyLower s.call = "move_joints"
  · rw [if_pos c8] at h ⊢
    repeat' split at h
    all_goals first
      | (injection h with h1; injection h1 with h2 h3; subst h2; subst h3;
         exact ⟨rfl, by simp⟩)
      | injection h
  rw [if_neg c8] at h ⊢
  by_cases c9 : pyLower s.call = "relative_move"
  · rw [if_pos c9] at h ⊢
    repeat' split at h
    all_goals first
      | (injection h with h1; injection h1 with h2 h3; subst h2; subst h3;
         exact ⟨rfl, by simp⟩)
      | injection h
  rw [if_neg c9] at h ⊢
  by_cases c10 : pyLower s.call = "open_gripper"
  · rw [if_pos c10] at h ⊢
    injection h with h1
    injection h1 with h2 h3
    subst h2; subst h3
    exact ⟨rfl, by simp⟩
  rw [if_neg c10] at h ⊢
  by_cases c11 : pyLower s.call = "close_gripper"
  · rw [if_pos c11] at h ⊢
    injection h with h1
    injection h1 with h2 h3
    subst h2; subst h3
    exact ⟨rfl, by simp⟩
  rw [if_neg c11] at h ⊢
  by_cases c12 : pyLower s.call = "trajectory"
  · rw [if_pos c12] at h ⊢
    repeat' split at h
    all_goals first
      | (injection h with h1; injection h1 with h2 h3; subst h2; subst h3;
         refine ⟨rfl, ?_⟩;
         first
           | exact goHome_not_mem_execTrajSubs _ _ (by assumption)
           | simp)
      | injection h
  rw [if_neg c12] at h ⊢
  by_cases c13 : pyLower s.call = "reference_motion"
  · rw [if_pos c13] at h ⊢
    split at h
    · injection h with h1
      injection h1 with h2 h3
      subst h2; subst h3
      refine ⟨by simp_all, by simp⟩
    · injection h with h1
      injection h1 with h2 h3
      subst h2; subst h3
      refine ⟨by simp_all, ?_⟩
      intro hmem
      rcases List.mem_append.mp hmem with hm | hm
      · rcases List.mem_append.mp hm with hm1 | hm1
        · split at hm1 <;> simp_all
        · exact goHome_not_mem_playMotion _ hm1
      · split at hm <;> simp_all
  rw [if_neg c13] at h ⊢
  injection h with h1
  injection h1 with h2 h3
  subst h2; subst h3
  exact ⟨rfl, by simp⟩


/-- A step loop started with the `did_motion` flag set ends with `go_home`. -/
theorem execSteps_true_goHome (env : ExecEnv) (l : List Step) (tr : List RAction)
    (h : execSteps env l true = .ok tr) : tr.getLast? = some RAction.goHome := by
  induction l generalizing tr with
  | nil =>
    simp only [execSteps, if_pos] at h
    injection h with h1
    subst h1
    simp
  | cons s rest ih =>
    simp only [execSteps] at h
    cases hx : execStep env s with
    | error e => simp only [hx] at h; exact Except.noConfusion h
    | ok pr =>
      obtain ⟨tr1, m⟩ := pr
      simp only [hx, Bool.true_or] at h
      cases hy : execSteps env rest true with
      | error e => simp only [hy] at h; exact Except.noConfusion h
      | ok tail =>
        simp only [hy] at h
        injection h with h1
        subst h1
        have htail := ih tail hy
        have hne : tail ≠ [] := by
          intro hnil
          rw [hnil] at htail
          simp at htail
        rw [List.getLast?_append_of_ne_nil _ hne]
        exact htail

/-- If any step of the remaining plan triggers motion, the loop trace ends
with `go_home`. -/
theorem execSteps_motion_goHome (env : ExecEnv) (l : List Step) (did : Bool) (tr : List RAction)
    (h : execSteps env l did = .ok tr) (hs : ∃ s ∈ l, triggersMotion env s = true) :
    tr.getLast? = some RAction.goHome := by
  induction l generalizing did tr with
  | nil => simp at hs
  | cons s rest ih =>
    simp only [execSteps] at h
    cases hx : execStep env s with
    | error e => simp only [hx] at h; exact Except.noConfusion h
    | ok pr =>
      obtain ⟨tr1, m⟩ := pr
      simp only [hx] at h
      cases hy : execSteps env rest (did || m) with
      | error e => simp only [hy] at h; exact Except.noConfusion h
      | ok tail =>
        simp only [hy] at h
        injection h with h1
        subst h1
        rcases hs with ⟨s0, hmem, htrig⟩
        have hne : tail.getLast? = some RAction.goHome → tail ≠ [] := by
          intro htail hnil
          rw [hnil] at htail
          simp at htail
        rcases List.mem_cons.mp hmem with rfl | hmem0
        · have hm := (execStep_spec env s0 tr1 m hx).1
          rw [htrig] at hm
          subst hm
          rw [Bool.or_true] at hy
          have htail := execSteps_true_goHome env rest tail hy
          rw [List.getLast?_append_of_ne_nil _ (hne htail)]
          exact htail
        · have htail := ih (did || m) tail hy ⟨s0, hmem0, htrig⟩
          rw [List.getLast?_append_of_ne_nil _ (hne htail)]
          exact htail

/-- If no step of the plan triggers motion, the loop (entered with a clear
flag) never issues `go_home`. -/
theorem execSteps_no_motion_no_goHome (env : ExecEnv) (l : List Step) (tr : List RAction)
    (h : execSteps env l false = .ok tr) (hs : ∀ s ∈ l, triggersMotion env s = false) :
    RAction.goHome ∉ tr := by
  induction l generalizing tr with
  | nil =>
    simp only [execSteps, if_neg] at h
    injection h with h1
    subst h1
    simp
  | cons s rest ih =>
    simp only [execSteps] at h
    cases hx : execStep env s with
    | error e => simp only [hx] at h; exact Except.noConfusion h
    | ok pr =>
      obtain ⟨tr1, m⟩ := pr
      have hm := (execStep_spec env s tr1 m hx).1
      rw [hs s (List.mem_cons_self s rest)] at hm
      subst hm
      simp only [hx, Bool.or_false] at h
      cases hy : execSteps env rest false with
      | error e => simp only [hy] at h; exact Except.noConfusion h
      | ok tail =>
        simp only [hy] at h
        injection h with h1
        subst h1
        intro hmem
        rcases List.mem_append.mp hmem with hm | hm
        · exact (execStep_spec env s tr1 false hx).2 hm
        · exact ih tail hy (fun s0 hm0 => hs s0 (List.mem_cons_of_mem s hm0)) hm

/-- C2 (counterexample): the home-return invariant fails as stated.  A plan
whose only step is a `reference_motion` — a call in the claimed trigger set —
with a name that resolves to no known motion is warned about and skipped, so
`did_motion` stays clear and no final `go_home` is issued. -/
theorem C2_home_return_counterexample :
    (pyLower "reference_motion") ∈ ["move_joint", "move_joints", "relative_move", "wave",
      "dance", "draw_shape", "trajectory", "reference_motion"] ∧
    execute_plan emptyEnv [⟨"reference_motion", [("name", JVal.str "zzz")]⟩] =
      .ok [RAction.warnUnknownMotion "zzz"] ∧
    RAction.goHome ∉ [RAction.warnUnknownMotion "zzz"] := by decide

/-- C2 (amended): for every plan whose execution completes, if some step
triggers motion — any of `wave`, `dance`, `draw_shape`, `move_joint`,
`move_joints`, `relative_move`, `open_gripper`, `close_gripper`,
`trajectory`, or a `reference_motion` whose name resolves to a known motion —
then the trace ends with the executor's `go_home()` (whose own exception the
source swallows); if no step triggers motion (in particular a plan of only
`speak` and `tap_morse` steps), no `go_home` is ever issued. -/
theorem C2_home_return_amended (env : ExecEnv) (plan : Plan) (tr : List RAction)
    (h : execute_plan env plan = .ok tr) :
    ((∃ s ∈ plan, triggersMotion env s = true) → tr.getLast? = some RAction.goHome) ∧
    ((∀ s ∈ plan, triggersMotion env s = false) → RAction.goHome ∉ tr) ∧
    (∀ s : Step, pyLower s.call ∈ ["wave", "dance", "draw_shape", "move_joint", "move_joints",
        "relative_move", "open_gripper", "close_gripper", "trajectory"] →
      triggersMotion env s = true) := by
  refine ⟨fun hs => execSteps_motion_goHome env plan false tr h hs,
          fun hs => execSteps_no_motion_no_goHome env plan tr h hs, ?_⟩
  intro s hmem
  simp only [List.mem_cons, List.not_mem_nil, or_false] at hmem
  rcases hmem with h1 | h1 | h1 | h1 | h1 | h1 | h1 | h1 | h1 <;> simp [triggersMotion, h1]

/-- Witness for C2 (amended): a one-wave plan ends in `go_home`. -/
theorem C2_home_return_amended_witness :
    ([RAction.waveR 1, RAction.goHome] : List RAction).getLast? = some RAction.goHome :=
  (C2_home_return_amended emptyEnv [⟨"wave", []⟩] [RAction.waveR 1, RAction.goHome]
    (by decide)).1 (by decide)

/-- C8: the executor skips any step whose call is not one of the enumerated
tool names — it emits only a warning, reports no motion, never fails, and
continues with the remaining steps; in particular the plan
`[{call: levitate}, {call: wave}]` executes only the wave (plus the closing
`go_home` the wave triggers) and propagates no exception. -/
theorem C8_unknown_tool_skipped (env : ExecEnv) (s : Step)
    (h : pyLower s.call ∉ knownCalls) :
    execStep env s = .ok ([RAction.warnUnknownCall (pyLower s.call)], false) ∧
    (∀ (rest : List Step) (did : Bool),
      execSteps env (s :: rest) did =
        match execSteps env rest did with
        | .ok tail => .ok (RAction.warnUnknownCall (pyLower s.call) :: tail)
        | .error e => .error e) ∧
    execute_plan emptyEnv [⟨"levitate", []⟩, ⟨"wave", []⟩] =
      .ok [RAction.warnUnknownCall "levitate", RAction.waveR 1, RAction.goHome] := by
  have hstep : execStep env s = .ok ([RAction.warnUnknownCall (pyLower s.call)], false) := by
    simp only [knownCalls, List.mem_cons, List.not_mem_nil, or_false, not_or] at h
    obtain ⟨h1, h2, h3, h4, h5, h6, h7, h8, h9, h10, h11, h12, h13⟩ := h
    simp only [execStep, if_neg h1, if_neg h2, if_neg h3, if_neg h4, if_neg h5, if_neg h6,
      if_neg h7, if_neg h8, if_neg h9, if_neg h10, if_neg h11, if_neg h12, if_neg h13]
  refine ⟨hstep, fun rest did => ?_, by decide⟩
  cases hy : execSteps env rest did with
  | error e => simp [execSteps, hstep, hy]
  | ok tail => simp [execSteps, hstep, hy]

/-- Witness for C8 at the unknown call `levitate`. -/
theorem C8_unknown_tool_skipped_witness :
    execStep emptyEnv ⟨"levitate", []⟩ =
      .ok ([RAction.warnUnknownCall (pyLower "levitate")], false) :=
  (C8_unknown_tool_skipped emptyEnv ⟨"levitate", []⟩ (by decide)).1

/-- C9: inside a trajectory, a `{wait: w}` sub-step sleeps `max(0, w)` with
no upper cap (and `0.1` seconds when `w` does not parse as a float), while a
top-level `wait` step is capped at 10 seconds; hence a trajectory wait can
sleep longer than 10 seconds, as the concrete 20-second plan shows. -/
theorem C9_trajectory_wait_uncapped :
    (∀ w : PyNum, execTrajSub [("wait", TrajVal.p (.q w))] =
      .ok [RAction.sleep (PyNum.pymax ⟨0, 1⟩ w)]) ∧
    execTrajSub [("wait", TrajVal.p (.s "abc"))] = .ok [RAction.sleep ⟨1, 10⟩] ∧
    (∀ (env : ExecEnv) (w : PyNum),
      execStep env ⟨"wait", [("seconds", JVal.p (.q w))]⟩ =
        .ok ([RAction.sleep (PyNum.pymin (PyNum.pymax ⟨0, 1⟩ w) ⟨10, 1⟩)], false)) ∧
    (execute_plan emptyEnv
        [⟨"trajectory", [("steps", JVal.steps [[("wait", TrajVal.p (.q ⟨20, 1⟩))]])]⟩] =
      .ok [RAction.sleep ⟨20, 1⟩, RAction.goHome] ∧
     execute_plan emptyEnv [⟨"wait", [("seconds", JVal.p (.q ⟨20, 1⟩))]⟩] =
      .ok [RAction.sleep ⟨10, 1⟩] ∧
     PyNum.lt ⟨10, 1⟩ ⟨20, 1⟩ = true) := by
  refine ⟨fun w => rfl, by decide, fun env w => rfl, by decide, by decide, by decide⟩

end VC
